import Mathlib

/-!
Verification of the SafeTimer timer-pool engine (src/src/safetimer.c) against
its natural-language specification.

The embedding models the default build configuration of safetimer.c with the
optional query and coroutine subsystems compiled in, which is the
configuration the specification describes:
  MAX_TIMERS = 4, BSP_TICK_TYPE_16BIT = 1 (ticks are uint16_t),
  ENABLE_PARAM_CHECK = 1, ENABLE_QUERY_API = 1, SAFETIMER_ENABLE_CORO = 1,
  SAFETIMER_ENABLE_CATCHUP = 0 (coalesce), SAFETIMER_REPEAT_ONLY = 0,
  ENABLE_DEBUG_ASSERT = 0.
Machine integers are modelled as Nat with explicit reduction modulo the
relevant power of two; the C int handle type is modelled as Int (32-bit
two's-complement values are small enough to be exact).  The code is
single-threaded in this model: the BSP critical sections are no-ops and the
current tick is passed explicitly in place of bsp_get_ticks(); consequently
the ISR-interference re-validation checks in trigger_timer and
safetimer_advance_period always pass and are noted where they occur.
-/

namespace SafeTimer

/-- Pool capacity, safetimer_config.h default. -/
def MAX_TIMERS : Nat := 4

/-- Modulus of the 16-bit tick type (BSP_TICK_TYPE_16BIT = 1 default). -/
def TICK_MOD : Nat := 65536

/-- Modulus of the 32-bit tick type (BSP_TICK_TYPE_16BIT = 0 variant). -/
def TICK_MOD32 : Nat := 4294967296

/-- HANDLE_INDEX_BITS for MAX_TIMERS = 4. -/
def HANDLE_INDEX_BITS : Nat := 2

/-- HANDLE_GEN_BITS: min (8 - HANDLE_INDEX_BITS) 6 = 6. -/
def HANDLE_GEN_BITS : Nat := 6

/-- HANDLE_GEN_MAX = 2 ^ HANDLE_GEN_BITS - 1. -/
def HANDLE_GEN_MAX : Nat := 63

/-- The invalid-handle sentinel, safetimer.h. -/
def SAFETIMER_INVALID_HANDLE : Int := -1

/-- TIMER_MODE_ONE_SHOT enumerator value. -/
def TIMER_MODE_ONE_SHOT : Nat := 0

/-- TIMER_MODE_REPEAT enumerator value. -/
def TIMER_MODE_REPEAT : Nat := 1

/-- timer_error_t result codes from safetimer.h. -/
inductive timer_error_t where
  | TIMER_OK
  | TIMER_ERR_FULL
  | TIMER_ERR_INVALID
  | TIMER_ERR_NOT_FOUND
deriving Repr, DecidableEq

export timer_error_t (TIMER_OK TIMER_ERR_FULL TIMER_ERR_INVALID TIMER_ERR_NOT_FOUND)

/-- uint16_t addition: wraps modulo 2^16. -/
def u16_add (a b : Nat) : Nat := (a + b) % TICK_MOD

/-- uint16_t subtraction: wraps modulo 2^16. -/
def u16_sub (a b : Nat) : Nat := ((((a : Int) - (b : Int)) % (65536 : Int)).toNat)

/-- uint32_t subtraction: wraps modulo 2^32. -/
def u32_sub (a b : Nat) : Nat := ((((a : Int) - (b : Int)) % (4294967296 : Int)).toNat)

/-- Reinterpret a uint16_t value as int16_t (two's complement). -/
def toSigned16 (u : Nat) : Int := if u % TICK_MOD < 32768 then (u % TICK_MOD : Int) else (u % TICK_MOD : Int) - 65536

/-- Reinterpret a uint32_t value as int32_t (two's complement). -/
def toSigned32 (u : Nat) : Int :=
  if u % TICK_MOD32 < 2147483648 then (u % TICK_MOD32 : Int) else (u % TICK_MOD32 : Int) - 4294967296

/-- safetimer_tick_diff, BSP_TICK_TYPE_16BIT branch: subtract in the uint16_t
domain, sign-extend through int16_t, widen to int32_t. -/
def safetimer_tick_diff (lhs rhs : Nat) : Int :=
  toSigned16 (u16_sub lhs rhs)

/-- safetimer_tick_diff, 32-bit branch: subtract in uint32_t, cast to int32_t. -/
def safetimer_tick_diff32 (lhs rhs : Nat) : Int :=
  toSigned32 (u32_sub lhs rhs)

/-! ## Data model: timer slots and the pool (safetimer.c) -/

/-- timer_slot_t.  The meta byte (active:1, mode:1, generation:6, manual
masking in the default USE_BITFIELD_META = 0 build) is modelled by its three
fields directly; the source documents the packing as a pure memory-layout
choice.  The callback pointer is opaque: only its null-ness is observable to
the engine, so it is modelled as a Bool (true = non-NULL). -/
structure timer_slot_t where
  period : Nat
  expire_time : Nat
  callback : Bool
  active : Bool
  mode : Nat
  generation : Nat
deriving Repr, DecidableEq

instance : Inhabited timer_slot_t :=
  ⟨{ period := 0, expire_time := 0, callback := false, active := false,
     mode := 0, generation := 0 }⟩

/-- safetimer_pool_t: slot array, used bitmap (uint8_t for MAX_TIMERS = 4)
and the global generation counter (uint8_t). -/
structure safetimer_pool_t where
  slots : List timer_slot_t
  used_bitmap : Nat
  next_generation : Nat
deriving Repr, DecidableEq

/-- g_timer_pool initial state: zero-initialised by the C runtime. -/
def initial_pool : safetimer_pool_t :=
  { slots := List.replicate MAX_TIMERS default, used_bitmap := 0, next_generation := 0 }

/-- Read slot i of the pool (array indexing in the C). -/
def getSlot (p : safetimer_pool_t) (i : Nat) : timer_slot_t := p.slots.getD i default

/-- Write slot i of the pool (array assignment in the C). -/
def setSlot (p : safetimer_pool_t) (i : Nat) (s : timer_slot_t) : safetimer_pool_t :=
  { p with slots := p.slots.set i s }

/-! ## Handle encoding and validation -/

/-- ENCODE_HANDLE(gen, idx) = (gen shifted left by HANDLE_GEN_SHIFT) or idx,
as a C int.  For MAX_TIMERS = 4 the shift is 2 bits. -/
def ENCODE_HANDLE (gen idx : Nat) : Int := ((gen * 4 + idx : Nat) : Int)

/-- DECODE_INDEX: the low HANDLE_INDEX_BITS bits of the handle, after the C
int is read as its two's-complement (mod 2^32) bit pattern. -/
def DECODE_INDEX (handle : Int) : Nat := (handle % (4294967296 : Int)).toNat % 4

/-- DECODE_GEN: bits [7:2] of the handle's two's-complement bit pattern. -/
def DECODE_GEN (handle : Int) : Nat := (handle % (4294967296 : Int)).toNat / 4 % 64

/-- validate_handle: range check, allocation (bitmap) check, generation
check, in that order. -/
def validate_handle (p : safetimer_pool_t) (handle : Int) : Bool :=
  let slot_index := DECODE_INDEX handle
  let handle_gen := DECODE_GEN handle
  if MAX_TIMERS ≤ slot_index then false
  else if p.used_bitmap &&& (1 <<< slot_index) == 0 then false
  else if handle_gen != (getSlot p slot_index).generation then false
  else true

/-! ## Pool operations -/

/-- find_free_slot: first index whose bitmap bit is clear, none when full
(the C returns -1). -/
def find_free_slot (p : safetimer_pool_t) : Option Nat :=
  (List.range MAX_TIMERS).find? (fun i => p.used_bitmap &&& (1 <<< i) == 0)

/-- Generation allocation step in safetimer_create: uint8_t increment, then
wrap into 1..HANDLE_GEN_MAX skipping 0. -/
def bump_generation (g : Nat) : Nat :=
  let g' := (g + 1) % 256
  if g' = 0 ∨ HANDLE_GEN_MAX < g' then 1 else g'

/-- safetimer_create.  Parameter checks (ENABLE_PARAM_CHECK = 1 with the
16-bit period cap), free-slot search, generation allocation, slot
initialisation.  The C's trailing collision loop (re-deriving the generation
while the encoded handle equals SAFETIMER_INVALID_HANDLE) is dead code for
the int handle type, because the encoding gen*4+idx is nonnegative and the
sentinel is -1; the loop guard is therefore never true and the loop is
omitted here. -/
def safetimer_create (p : safetimer_pool_t) (period_ms : Nat) (mode : Nat)
    (callback : Bool) : safetimer_pool_t × Int :=
  if period_ms = 0 ∨ 2147483647 < period_ms then (p, SAFETIMER_INVALID_HANDLE)
  else if 65535 < period_ms then (p, SAFETIMER_INVALID_HANDLE)
  else if mode ≠ TIMER_MODE_ONE_SHOT ∧ mode ≠ TIMER_MODE_REPEAT then
    (p, SAFETIMER_INVALID_HANDLE)
  else
    match find_free_slot p with
    | none => (p, SAFETIMER_INVALID_HANDLE)
    | some slot_index =>
      let generation := bump_generation p.next_generation
      let s := getSlot p slot_index
      let s' := { s with period := period_ms % TICK_MOD,
                         mode := mode % 2,
                         callback := callback,
                         active := false,
                         generation := generation % 64 }
      let p' := { slots := (setSlot p slot_index s').slots,
                  used_bitmap := p.used_bitmap ||| (1 <<< slot_index),
                  next_generation := generation }
      (p', ENCODE_HANDLE generation slot_index)

/-- update_expire_time: expire_time = current_tick + period (uint16_t). -/
def update_expire_time (s : timer_slot_t) (current_tick : Nat) : timer_slot_t :=
  { s with expire_time := u16_add current_tick s.period }

/-- safetimer_start: validate, set expiry from the current tick, activate. -/
def safetimer_start (p : safetimer_pool_t) (handle : Int) (current_tick : Nat) :
    safetimer_pool_t × timer_error_t :=
  if !validate_handle p handle then (p, TIMER_ERR_INVALID)
  else
    let slot_index := DECODE_INDEX handle
    let s := update_expire_time (getSlot p slot_index) current_tick
    (setSlot p slot_index { s with active := true }, TIMER_OK)

/-- safetimer_stop (ENABLE_QUERY_API subsystem): validate, clear active. -/
def safetimer_stop (p : safetimer_pool_t) (handle : Int) :
    safetimer_pool_t × timer_error_t :=
  if !validate_handle p handle then (p, TIMER_ERR_INVALID)
  else
    let slot_index := DECODE_INDEX handle
    (setSlot p slot_index { getSlot p slot_index with active := false }, TIMER_OK)

/-- safetimer_delete: validate, clear active, release the bitmap bit
(uint8_t and-not keeps the low 8 bits). -/
def safetimer_delete (p : safetimer_pool_t) (handle : Int) :
    safetimer_pool_t × timer_error_t :=
  if !validate_handle p handle then (p, TIMER_ERR_INVALID)
  else
    let slot_index := DECODE_INDEX handle
    let p₁ := setSlot p slot_index { getSlot p slot_index with active := false }
    ({ p₁ with used_bitmap := p₁.used_bitmap &&& (255 ^^^ (1 <<< slot_index)) }, TIMER_OK)

/-- safetimer_set_period: period range checks, validate, store the new
period, and if the timer is running restart the countdown from now. -/
def safetimer_set_period (p : safetimer_pool_t) (handle : Int)
    (new_period_ms : Nat) (current_tick : Nat) : safetimer_pool_t × timer_error_t :=
  if new_period_ms = 0 ∨ 2147483647 < new_period_ms then (p, TIMER_ERR_INVALID)
  else if 65535 < new_period_ms then (p, TIMER_ERR_INVALID)
  else if !validate_handle p handle then (p, TIMER_ERR_INVALID)
  else
    let slot_index := DECODE_INDEX handle
    let s := getSlot p slot_index
    let s₁ := { s with period := new_period_ms % TICK_MOD }
    if s₁.active then
      (setSlot p slot_index
        { s₁ with expire_time := u16_add current_tick (new_period_ms % TICK_MOD) }, TIMER_OK)
    else
      (setSlot p slot_index s₁, TIMER_OK)

/-- safetimer_advance_period (SAFETIMER_ENABLE_CORO subsystem): phase-locked
period change.  For an active timer the previous scheduled instant is
reconstructed as old expiry minus old period, the new expiry anchored there,
and when the result has already been reached (lag nonnegative) the catch-up
jump of whole new periods is applied.  In this sequential model the
ISR-interference re-check (expire_time and active unchanged since the
snapshot) always passes, so the catch-up write always lands. -/
def safetimer_advance_period (p : safetimer_pool_t) (handle : Int)
    (new_period_ms : Nat) (current_tick : Nat) : safetimer_pool_t × timer_error_t :=
  if new_period_ms = 0 ∨ 2147483647 < new_period_ms then (p, TIMER_ERR_INVALID)
  else if 65535 < new_period_ms then (p, TIMER_ERR_INVALID)
  else if !validate_handle p handle then (p, TIMER_ERR_INVALID)
  else
    let slot_index := DECODE_INDEX handle
    let s := getSlot p slot_index
    let prev_period := s.period
    let old_expire_snapshot := s.expire_time
    let s₁ := { s with period := new_period_ms % TICK_MOD }
    if s₁.active then
      let last_expire := u16_sub old_expire_snapshot prev_period
      let new_expire := u16_add last_expire (new_period_ms % TICK_MOD)
      let lag := safetimer_tick_diff current_tick new_expire
      if 0 ≤ lag then
        let missed_periods := lag.toNat / new_period_ms + 1
        let new_expire2 := u16_add new_expire (missed_periods * new_period_ms % 4294967296 % TICK_MOD)
        (setSlot p slot_index { s₁ with expire_time := new_expire2 }, TIMER_OK)
      else
        (setSlot p slot_index { s₁ with expire_time := new_expire }, TIMER_OK)
    else
      (setSlot p slot_index
        { s₁ with expire_time := u16_add current_tick (new_period_ms % TICK_MOD) }, TIMER_OK)

/-- safetimer_get_status (ENABLE_QUERY_API subsystem): validate and report
the active flag.  The C leaves the output parameter unwritten on validation
failure; the Bool in that case is a dummy false. -/
def safetimer_get_status (p : safetimer_pool_t) (handle : Int) : timer_error_t × Bool :=
  if !validate_handle p handle then (TIMER_ERR_INVALID, false)
  else (TIMER_OK, (getSlot p (DECODE_INDEX handle)).active)

/-- safetimer_get_pool_usage used-count: number of set bitmap bits among the
MAX_TIMERS slot positions. -/
def pool_used_count (p : safetimer_pool_t) : Nat :=
  (List.range MAX_TIMERS).countP (fun i => p.used_bitmap &&& (1 <<< i) != 0)

/-! ## Expiration processing -/

/-- trigger_timer (callback capture aside, which the caller performs): stop
a ONE_SHOT timer; for REPEAT in the default coalesce build
(SAFETIMER_ENABLE_CATCHUP = 0) advance the expiry by whole periods past the
current tick using the missed-periods division.  The ISR-interference
re-check on expire_time and active always passes in this sequential model,
so the computed expiry is always written back. -/
def trigger_timer (s : timer_slot_t) (current_tick : Nat) : timer_slot_t :=
  if s.mode = TIMER_MODE_ONE_SHOT then
    { s with active := false }
  else
    let old_expire := s.expire_time
    let period := s.period
    let lag := safetimer_tick_diff current_tick old_expire
    if 0 ≤ lag then
      let missed_periods := lag.toNat / period + 1
      { s with expire_time := u16_add old_expire (missed_periods * period % 4294967296 % TICK_MOD) }
    else
      { s with expire_time := u16_add old_expire period }

/-- One iteration of the safetimer_process loop for slot i: skip inactive
slots; on expiry capture generation, mode and callback, run trigger_timer,
then re-validate (generation unchanged, and for REPEAT still active) before
deciding to invoke the callback.  Returns the updated pool and whether the
slot's callback was invoked. -/
def process_slot (p : safetimer_pool_t) (i : Nat) (current_tick : Nat) :
    safetimer_pool_t × Bool :=
  let s := getSlot p i
  if !s.active then (p, false)
  else if 0 ≤ safetimer_tick_diff current_tick s.expire_time then
    let captured_gen := s.generation
    let captured_mode := s.mode
    let p' := setSlot p i (trigger_timer s current_tick)
    let s' := getSlot p' i
    let valid := (s'.generation == captured_gen) &&
                 (captured_mode != TIMER_MODE_REPEAT || s'.active)
    (p', s.callback && valid)
  else (p, false)

/-- The safetimer_process sweep over a list of slot indices, in order,
collecting the indices whose callbacks were invoked. -/
def process_list (p : safetimer_pool_t) (current_tick : Nat) :
    List Nat → safetimer_pool_t × List Nat
  | [] => (p, [])
  | i :: rest =>
    let step := process_slot p i current_tick
    let tail := process_list step.1 current_tick rest
    (tail.1, (if step.2 then [i] else []) ++ tail.2)

/-- safetimer_process: one pass over all MAX_TIMERS slots at the tick
sampled once at entry.  The recursion guard and the currently-executing
handle bookkeeping have no observable effect in this sequential model. -/
def safetimer_process (p : safetimer_pool_t) (current_tick : Nat) :
    safetimer_pool_t × List Nat :=
  process_list p current_tick (List.range MAX_TIMERS)

/-! ## Operation traces over the public API -/

/-- One public API call, with the tick-source reading it observes. -/
inductive PoolOp where
  | create (period_ms : Nat) (mode : Nat) (callback : Bool)
  | start (handle : Int) (tick : Nat)
  | stop (handle : Int)
  | delete (handle : Int)
  | setPeriod (handle : Int) (period_ms : Nat) (tick : Nat)
  | advancePeriod (handle : Int) (period_ms : Nat) (tick : Nat)
  | process (tick : Nat)
deriving Repr, DecidableEq

/-- State transition of one public API call (results discarded). -/
def applyOp (p : safetimer_pool_t) : PoolOp → safetimer_pool_t
  | .create period_ms mode callback => (safetimer_create p period_ms mode callback).1
  | .start handle tick => (safetimer_start p handle tick).1
  | .stop handle => (safetimer_stop p handle).1
  | .delete handle => (safetimer_delete p handle).1
  | .setPeriod handle period_ms tick => (safetimer_set_period p handle period_ms tick).1
  | .advancePeriod handle period_ms tick => (safetimer_advance_period p handle period_ms tick).1
  | .process tick => (safetimer_process p tick).1

/-- Run a sequence of public API calls. -/
def runOps (p : safetimer_pool_t) (ops : List PoolOp) : safetimer_pool_t :=
  ops.foldl applyOp p

/-! ## Basic state lemmas -/

/-! ## Slot-level view of the process sweep -/

/-- The effect of one process iteration on slot i itself, as a function of
the slot's prior state: an active, expired slot is updated by
trigger_timer, anything else is untouched. -/
def step_slot (s : timer_slot_t) (current_tick : Nat) : timer_slot_t :=
  if s.active ∧ 0 ≤ safetimer_tick_diff current_tick s.expire_time then
    trigger_timer s current_tick
  else s

/-- Whether one process iteration invokes slot i's callback: the slot is
active and expired, carries a non-NULL callback, and the post-trigger
re-validation (generation unchanged; for REPEAT still active) passes. -/
def fires_slot (s : timer_slot_t) (current_tick : Nat) : Bool :=
  s.active && decide (0 ≤ safetimer_tick_diff current_tick s.expire_time) && s.callback &&
  (((trigger_timer s current_tick).generation == s.generation) &&
   (s.mode != TIMER_MODE_REPEAT || (trigger_timer s current_tick).active))

/-- Iterated generation allocation: the generation obtained after k further
create allocations starting from counter value g. -/
def bumpIter (k g : Nat) : Nat := bump_generation^[k] g

/-- Operation trace driving slot 3 to generation 63 = DECODE_GEN (-1): fill
the four slots (generations 1..4), then delete and recreate the slot-3
timer 59 times (generations 5..63).  All deletes use the handle the
preceding create of slot 3 returned (gen*4 + 3). -/
def c7_ops : List PoolOp :=
  List.replicate 4 (PoolOp.create 100 1 true) ++
  ((List.range 59).map
    (fun k => [PoolOp.delete (((4 + k) * 4 + 3 : Nat) : Int), PoolOp.create 100 1 true])).flatten

/-- Operation trace in which slot 0's generation counter completes a full
63-step cycle: create (gen 1, handle 4), delete, then 62 create/delete
pairs on slot 0 (generations 2..63), then one final create, which wraps the
counter back to generation 1 and reallocates slot 0. -/
def c2_ops : List PoolOp :=
  [PoolOp.create 100 1 true, PoolOp.delete 4] ++
  ((List.range 62).map
    (fun k => [PoolOp.create 100 1 true, PoolOp.delete (((2 + k) * 4 : Nat) : Int)])).flatten ++
  [PoolOp.create 100 1 true]

/-- Concrete pool for the REPEAT coalescing scenario: one allocated, active
REPEAT timer in slot 0 with period 100 whose expiry is 100 (started at tick
0), carrying a callback. -/
def c3_pool : safetimer_pool_t :=
  { slots := [{ period := 100, expire_time := 100, callback := true, active := true,
                mode := 1, generation := 1 }, default, default, default],
    used_bitmap := 1, next_generation := 1 }

/-- Concrete pool for the ONE_SHOT scenario: one allocated, started
ONE_SHOT timer in slot 0 with period 100, expiry 100 (started at tick 0),
carrying a callback. -/
def c8_pool : safetimer_pool_t :=
  { slots := [{ period := 100, expire_time := 100, callback := true, active := true,
                mode := 0, generation := 1 }, default, default, default],
    used_bitmap := 1, next_generation := 1 }

/-- Concrete pool for the advance_period half-range counterexample: one
allocated, active REPEAT timer in slot 0 with period 100 and expiry 26636
(so that the re-anchored expiry for a new period of 40000 lands exactly on
the current tick 1000 modulo 2^16). -/
def c4_pool : safetimer_pool_t :=
  { slots := [{ period := 100, expire_time := 26636, callback := true, active := true,
                mode := 1, generation := 1 }, default, default, default],
    used_bitmap := 1, next_generation := 1 }

/-- One cycle of the zero-drift protocol: safetimer_process at the boundary
tick, then safetimer_advance_period with the same period at that tick;
returns the new pool and how often the timer's slot fired. -/
def drift_cycle (h : Int) (P t : Nat) (p : safetimer_pool_t) : safetimer_pool_t × Nat :=
  ((safetimer_advance_period (safetimer_process p t).1 h P t).1,
   (safetimer_process p t).2.count (DECODE_INDEX h))

/-- n cycles of the zero-drift protocol for a timer started at t0 with
period P: cycle k runs at tick (t0 + k * P) mod 2^16; accumulates the
number of firings of the timer's slot. -/
def run_cycles (h : Int) (P t0 : Nat) : Nat → safetimer_pool_t → safetimer_pool_t × Nat
  | 0, p => (p, 0)
  | n + 1, p =>
    let prev := run_cycles h P t0 n p
    let c := drift_cycle h P ((t0 + (n + 1) * P) % TICK_MOD) prev.1
    (c.1, prev.2 + c.2)

/-! ## Theorems -/

theorem u16_sub_lt (a b : Nat) : u16_sub a b < TICK_MOD := by
  unfold u16_sub
  have h1 : (0 : Int) ≤ ((a : Int) - b) % 65536 := Int.emod_nonneg _ (by norm_num)
  have h2 : ((a : Int) - b) % 65536 < 65536 := Int.emod_lt_of_pos _ (by norm_num)
  unfold TICK_MOD
  omega

theorem u16_sub_emod (a b : Nat) :
    ((u16_sub a b : Int)) = ((a : Int) - b) % 65536 := by
  unfold u16_sub
  have h1 : (0 : Int) ≤ ((a : Int) - b) % 65536 := Int.emod_nonneg _ (by norm_num)
  omega

theorem u32_sub_emod (a b : Nat) :
    ((u32_sub a b : Int)) = ((a : Int) - b) % 4294967296 := by
  unfold u32_sub
  have h1 : (0 : Int) ≤ ((a : Int) - b) % 4294967296 := Int.emod_nonneg _ (by norm_num)
  omega

/-- The 16-bit tick difference is congruent to the true difference mod 2^16
and lies in the int16_t range. -/
theorem tick_diff_spec (a b : Nat) :
    Int.ModEq (65536 : Int) (safetimer_tick_diff a b) ((a : Int) - b) ∧
    -32768 ≤ safetimer_tick_diff a b ∧ safetimer_tick_diff a b < 32768 := by
  have hlt := u16_sub_lt a b
  have hmod := u16_sub_emod a b
  unfold TICK_MOD at hlt
  unfold safetimer_tick_diff toSigned16 TICK_MOD
  have hself : u16_sub a b % 65536 = u16_sub a b := Nat.mod_eq_of_lt hlt
  rw [hself]
  constructor
  · split
    · rw [Int.ModEq]
      omega
    · rw [Int.ModEq]
      omega
  · split <;> omega

/-- The 32-bit tick difference is congruent to the true difference mod 2^32
and lies in the int32_t range. -/
theorem tick_diff32_spec (a b : Nat) :
    Int.ModEq (4294967296 : Int) (safetimer_tick_diff32 a b) ((a : Int) - b) ∧
    -2147483648 ≤ safetimer_tick_diff32 a b ∧ safetimer_tick_diff32 a b < 2147483648 := by
  have hmod := u32_sub_emod a b
  have h1 : (0 : Int) ≤ ((a : Int) - b) % 4294967296 := Int.emod_nonneg _ (by norm_num)
  have h2 : ((a : Int) - b) % 4294967296 < 4294967296 := Int.emod_lt_of_pos _ (by norm_num)
  have hlt : u32_sub a b < 4294967296 := by
    unfold u32_sub
    omega
  unfold safetimer_tick_diff32 toSigned32 TICK_MOD32
  have hself : u32_sub a b % 4294967296 = u32_sub a b := Nat.mod_eq_of_lt hlt
  rw [hself]
  constructor
  · split
    · rw [Int.ModEq]
      omega
    · rw [Int.ModEq]
      omega
  · split <;> omega

/-- Nonnegativity of the 16-bit tick difference is equivalent to the wrapped
unsigned difference lying below 2^15. -/
theorem tick_diff_nonneg_iff (a b : Nat) :
    0 ≤ safetimer_tick_diff a b ↔ ((a : Int) - b) % 65536 < 32768 := by
  have hlt := u16_sub_lt a b
  have hmod := u16_sub_emod a b
  unfold TICK_MOD at hlt
  unfold safetimer_tick_diff toSigned16 TICK_MOD
  have hself : u16_sub a b % 65536 = u16_sub a b := Nat.mod_eq_of_lt hlt
  rw [hself]
  split <;> omega

/-- Nonnegativity of the 32-bit tick difference is equivalent to the wrapped
unsigned difference lying below 2^31. -/
theorem tick_diff32_nonneg_iff (a b : Nat) :
    0 ≤ safetimer_tick_diff32 a b ↔ ((a : Int) - b) % 4294967296 < 2147483648 := by
  have hmod := u32_sub_emod a b
  have h1 : (0 : Int) ≤ ((a : Int) - b) % 4294967296 := Int.emod_nonneg _ (by norm_num)
  have h2 : ((a : Int) - b) % 4294967296 < 4294967296 := Int.emod_lt_of_pos _ (by norm_num)
  have hlt : u32_sub a b < 4294967296 := by
    unfold u32_sub
    omega
  unfold safetimer_tick_diff32 toSigned32 TICK_MOD32
  have hself : u32_sub a b % 4294967296 = u32_sub a b := Nat.mod_eq_of_lt hlt
  rw [hself]
  split <;> omega

/-- C1: safetimer_tick_diff computes, for either tick width, the
two's-complement signed reinterpretation of the subtraction performed in the
unsigned tick width: the result is congruent to a - b modulo 2^w, lies in
the signed w-bit range, and is nonnegative exactly when (a - b) mod 2^w is
below 2^(w-1); in particular the 16-bit diff of 5 and 65531 is 10. -/
theorem c1_tick_diff_signed_wraparound (a b : Nat) (ha : a < 65536) (hb : b < 65536)
    (a32 b32 : Nat) (ha32 : a32 < 4294967296) (hb32 : b32 < 4294967296) :
    (Int.ModEq (65536 : Int) (safetimer_tick_diff a b) ((a : Int) - b) ∧
     -32768 ≤ safetimer_tick_diff a b ∧ safetimer_tick_diff a b < 32768 ∧
     (0 ≤ safetimer_tick_diff a b ↔ ((a : Int) - b) % 65536 < 32768)) ∧
    (Int.ModEq (4294967296 : Int) (safetimer_tick_diff32 a32 b32) ((a32 : Int) - b32) ∧
     -2147483648 ≤ safetimer_tick_diff32 a32 b32 ∧ safetimer_tick_diff32 a32 b32 < 2147483648 ∧
     (0 ≤ safetimer_tick_diff32 a32 b32 ↔ ((a32 : Int) - b32) % 4294967296 < 2147483648)) ∧
    safetimer_tick_diff 5 65531 = 10 := by
  obtain ⟨hc, hlo, hhi⟩ := tick_diff_spec a b
  obtain ⟨hc32, hlo32, hhi32⟩ := tick_diff32_spec a32 b32
  refine ⟨⟨hc, hlo, hhi, tick_diff_nonneg_iff a b⟩,
          ⟨hc32, hlo32, hhi32, tick_diff32_nonneg_iff a32 b32⟩, ?_⟩
  decide

/-- Witness for C1 at the specification's own example (16-bit wrap: a = 5,
b = 65531 gives +10) and a 32-bit instance. -/
theorem c1_tick_diff_signed_wraparound_witness :
    safetimer_tick_diff 5 65531 = 10 ∧ 0 ≤ safetimer_tick_diff 5 65531 := by
  have h := c1_tick_diff_signed_wraparound 5 65531 (by decide) (by decide)
    1 4294967295 (by decide) (by decide)
  refine ⟨h.2.2, ?_⟩
  rw [h.2.2]
  decide

theorem getSlot_setSlot_same (p : safetimer_pool_t) (i : Nat) (s : timer_slot_t)
    (h : i < p.slots.length) : getSlot (setSlot p i s) i = s := by
  unfold getSlot setSlot
  simp [List.getD_eq_getElem?_getD, List.getElem?_set_self h]

theorem getSlot_setSlot_ne (p : safetimer_pool_t) (i j : Nat) (s : timer_slot_t)
    (h : i ≠ j) : getSlot (setSlot p i s) j = getSlot p j := by
  unfold getSlot setSlot
  simp [List.getD_eq_getElem?_getD, List.getElem?_set_ne h]

theorem setSlot_used_bitmap (p : safetimer_pool_t) (i : Nat) (s : timer_slot_t) :
    (setSlot p i s).used_bitmap = p.used_bitmap := rfl

theorem setSlot_next_generation (p : safetimer_pool_t) (i : Nat) (s : timer_slot_t) :
    (setSlot p i s).next_generation = p.next_generation := rfl

theorem setSlot_length (p : safetimer_pool_t) (i : Nat) (s : timer_slot_t) :
    (setSlot p i s).slots.length = p.slots.length := by
  unfold setSlot
  simp

theorem process_slot_spec (p : safetimer_pool_t) (i : Nat) (t : Nat)
    (hlen : i < p.slots.length) :
    (∀ j, getSlot (process_slot p i t).1 j =
       if j = i then step_slot (getSlot p i) t else getSlot p j) ∧
    (process_slot p i t).2 = fires_slot (getSlot p i) t ∧
    (process_slot p i t).1.used_bitmap = p.used_bitmap ∧
    (process_slot p i t).1.next_generation = p.next_generation ∧
    (process_slot p i t).1.slots.length = p.slots.length := by
  by_cases hact : (getSlot p i).active
  · by_cases hexp : 0 ≤ safetimer_tick_diff t (getSlot p i).expire_time
    · have hpair : process_slot p i t =
          (setSlot p i (trigger_timer (getSlot p i) t),
           (getSlot p i).callback &&
             (((getSlot (setSlot p i (trigger_timer (getSlot p i) t)) i).generation ==
                 (getSlot p i).generation) &&
              ((getSlot p i).mode != TIMER_MODE_REPEAT ||
                 (getSlot (setSlot p i (trigger_timer (getSlot p i) t)) i).active))) := by
        simp [process_slot, hact, hexp]
      rw [hpair]
      refine ⟨?_, ?_, rfl, rfl, setSlot_length _ _ _⟩
      · intro j
        by_cases hj : j = i
        · subst hj
          rw [getSlot_setSlot_same _ _ _ hlen, if_pos rfl, step_slot,
              if_pos (And.intro hact hexp)]
        · rw [getSlot_setSlot_ne _ _ _ _ (fun h => hj h.symm), if_neg hj]
      · rw [getSlot_setSlot_same _ _ _ hlen]
        simp [fires_slot, hact, hexp]
    · have hpair : process_slot p i t = (p, false) := by
        simp [process_slot, hact, hexp]
      rw [hpair]
      refine ⟨?_, ?_, rfl, rfl, rfl⟩
      · intro j
        by_cases hj : j = i
        · subst hj
          rw [if_pos rfl, step_slot, if_neg (fun h => hexp h.2)]
        · rw [if_neg hj]
      · simp [fires_slot, hexp]
  · have hpair : process_slot p i t = (p, false) := by
      simp [process_slot, hact]
    rw [hpair]
    refine ⟨?_, ?_, rfl, rfl, rfl⟩
    · intro j
      by_cases hj : j = i
      · subst hj
        rw [if_pos rfl, step_slot, if_neg (fun h => hact h.1)]
      · rw [if_neg hj]
    · simp [fires_slot, hact]

theorem process_list_spec (t : Nat) (l : List Nat) :
    ∀ (p : safetimer_pool_t), l.Nodup → (∀ j ∈ l, j < p.slots.length) →
    ((∀ j, getSlot (process_list p t l).1 j =
        if j ∈ l then step_slot (getSlot p j) t else getSlot p j) ∧
     (process_list p t l).2 = l.filter (fun j => fires_slot (getSlot p j) t) ∧
     (process_list p t l).1.used_bitmap = p.used_bitmap ∧
     (process_list p t l).1.next_generation = p.next_generation ∧
     (process_list p t l).1.slots.length = p.slots.length) := by
  induction l with
  | nil => intro p _ _; simp [process_list]
  | cons i rest ih =>
    intro p hnd hbounds
    have hi : i < p.slots.length := hbounds i (List.mem_cons_self i rest)
    obtain ⟨hget, hfire, hbm, hng, hln⟩ := process_slot_spec p i t hi
    have hnd' : rest.Nodup := (List.nodup_cons.mp hnd).2
    have hni : i ∉ rest := (List.nodup_cons.mp hnd).1
    have hbounds' : ∀ j ∈ rest, j < (process_slot p i t).1.slots.length := by
      intro j hj
      rw [hln]
      exact hbounds j (List.mem_cons_of_mem i hj)
    obtain ⟨ihget, ihfire, ihbm, ihng, ihln⟩ := ih (process_slot p i t).1 hnd' hbounds'
    refine ⟨?_, ?_, ?_, ?_, ?_⟩
    · intro j
      show getSlot (process_list (process_slot p i t).1 t rest).1 j = _
      rw [ihget j]
      by_cases hjr : j ∈ rest
      · have hjne : j ≠ i := fun h => hni (h ▸ hjr)
        rw [hget j, if_neg hjne]
        simp [hjr, List.mem_cons, hjne]
      · rw [hget j]
        by_cases hji : j = i
        · subst hji
          simp [hjr, List.mem_cons]
        · simp [hji, hjr, List.mem_cons]
    · show (if (process_slot p i t).2 then [i] else []) ++
          (process_list (process_slot p i t).1 t rest).2 = _
      rw [ihfire, hfire]
      have hrest : (rest.filter (fun j => fires_slot (getSlot (process_slot p i t).1 j) t)) =
          rest.filter (fun j => fires_slot (getSlot p j) t) := by
        apply List.filter_congr
        intro j hj
        have hjne : j ≠ i := fun h => hni (h ▸ hj)
        rw [hget j, if_neg hjne]
      rw [hrest]
      by_cases hf : fires_slot (getSlot p i) t
      · simp [hf, List.filter_cons]
      · simp [hf, List.filter_cons]
    · show (process_list (process_slot p i t).1 t rest).1.used_bitmap = _
      rw [ihbm, hbm]
    · show (process_list (process_slot p i t).1 t rest).1.next_generation = _
      rw [ihng, hng]
    · show (process_list (process_slot p i t).1 t rest).1.slots.length = _
      rw [ihln, hln]

/-- Characterisation of one safetimer_process pass: each in-range slot is
stepped independently, and the invoked-callback list is exactly the
in-order list of firing slots. -/
theorem safetimer_process_spec (p : safetimer_pool_t) (t : Nat)
    (hlen : p.slots.length = MAX_TIMERS) :
    (∀ j, getSlot (safetimer_process p t).1 j =
       if j < MAX_TIMERS then step_slot (getSlot p j) t else getSlot p j) ∧
    (safetimer_process p t).2 =
      (List.range MAX_TIMERS).filter (fun j => fires_slot (getSlot p j) t) ∧
    (safetimer_process p t).1.used_bitmap = p.used_bitmap ∧
    (safetimer_process p t).1.next_generation = p.next_generation ∧
    (safetimer_process p t).1.slots.length = p.slots.length := by
  have hb : ∀ j ∈ List.range MAX_TIMERS, j < p.slots.length := by
    intro j hj
    rw [hlen]
    exact List.mem_range.mp hj
  obtain ⟨hget, hfire, hbm, hng, hln⟩ :=
    process_list_spec t (List.range MAX_TIMERS) p (List.nodup_range _) hb
  refine ⟨?_, hfire, hbm, hng, hln⟩
  intro j
  have := hget j
  simpa [List.mem_range] using this

theorem DECODE_INDEX_lt (h : Int) : DECODE_INDEX h < MAX_TIMERS := by
  unfold DECODE_INDEX MAX_TIMERS
  omega

/-- validate_handle succeeds exactly when the decoded slot is in range and
allocated and the decoded generation matches the slot's generation. -/
theorem validate_handle_iff (p : safetimer_pool_t) (h : Int) :
    validate_handle p h = true ↔
      (p.used_bitmap &&& (1 <<< DECODE_INDEX h) ≠ 0 ∧
       DECODE_GEN h = (getSlot p (DECODE_INDEX h)).generation) := by
  unfold validate_handle
  have hr : ¬ MAX_TIMERS ≤ DECODE_INDEX h := Nat.not_le.mpr (DECODE_INDEX_lt h)
  simp [hr]

/-- C9: the claim (spec, header docs and the repo's own unit test
test_stop_unallocated_timer) says safetimer_stop on an in-range but
unallocated slot returns TIMER_ERR_NOT_FOUND, distinct from
TIMER_ERR_INVALID.  The code routes this case through validate_handle and
returns TIMER_ERR_INVALID: at handle 0 on the empty pool (slot index 0 in
range, bitmap bit clear) stop returns TIMER_ERR_INVALID, which differs from
TIMER_ERR_NOT_FOUND, and the pool is unchanged. -/
theorem c9_stop_unallocated_returns_invalid :
    DECODE_INDEX 0 < MAX_TIMERS ∧
    initial_pool.used_bitmap &&& (1 <<< DECODE_INDEX 0) = 0 ∧
    (safetimer_stop initial_pool 0).2 = TIMER_ERR_INVALID ∧
    (safetimer_stop initial_pool 0).1 = initial_pool ∧
    TIMER_ERR_INVALID ≠ TIMER_ERR_NOT_FOUND := by
  decide

/-- Helper: for a valid handle and a valid period, safetimer_set_period stores
the new period; if the timer is active it resets the phase to now
(expire_time = current_tick + new period, mod 2^16), and if inactive it
leaves expire_time untouched; the active flag, callback, mode, generation
and all other slots are unchanged. -/
theorem set_period_semantics_core (p : safetimer_pool_t) (h : Int) (per t : Nat)
    (hval : validate_handle p h = true) (hper1 : 1 ≤ per) (hper2 : per ≤ 65535)
    (hlen : p.slots.length = MAX_TIMERS) :
    (safetimer_set_period p h per t).2 = TIMER_OK ∧
    (getSlot (safetimer_set_period p h per t).1 (DECODE_INDEX h)).period = per ∧
    ((getSlot p (DECODE_INDEX h)).active = true →
      (getSlot (safetimer_set_period p h per t).1 (DECODE_INDEX h)).expire_time =
        (t + per) % TICK_MOD) ∧
    ((getSlot p (DECODE_INDEX h)).active = false →
      (getSlot (safetimer_set_period p h per t).1 (DECODE_INDEX h)).expire_time =
        (getSlot p (DECODE_INDEX h)).expire_time) ∧
    (getSlot (safetimer_set_period p h per t).1 (DECODE_INDEX h)).active =
      (getSlot p (DECODE_INDEX h)).active ∧
    (getSlot (safetimer_set_period p h per t).1 (DECODE_INDEX h)).callback =
      (getSlot p (DECODE_INDEX h)).callback ∧
    (getSlot (safetimer_set_period p h per t).1 (DECODE_INDEX h)).mode =
      (getSlot p (DECODE_INDEX h)).mode ∧
    (getSlot (safetimer_set_period p h per t).1 (DECODE_INDEX h)).generation =
      (getSlot p (DECODE_INDEX h)).generation ∧
    (∀ j, j ≠ DECODE_INDEX h → getSlot (safetimer_set_period p h per t).1 j = getSlot p j) := by
  have hb : DECODE_INDEX h < p.slots.length := by
    rw [hlen]; exact DECODE_INDEX_lt h
  have hc1 : ¬(per = 0 ∨ 2147483647 < per) := by omega
  have hc2 : ¬(65535 < per) := by omega
  have hmod : per % TICK_MOD = per := by
    unfold TICK_MOD
    omega
  have hstep : safetimer_set_period p h per t =
      (setSlot p (DECODE_INDEX h)
        (if (getSlot p (DECODE_INDEX h)).active then
          { getSlot p (DECODE_INDEX h) with
              period := per % TICK_MOD,
              expire_time := u16_add t (per % TICK_MOD) }
         else { getSlot p (DECODE_INDEX h) with period := per % TICK_MOD }),
       TIMER_OK) := by
    unfold safetimer_set_period
    rw [if_neg hc1, if_neg hc2, hval]
    by_cases hac : (getSlot p (DECODE_INDEX h)).active <;> simp [hac]
  by_cases hac : (getSlot p (DECODE_INDEX h)).active
  · have hstep' : safetimer_set_period p h per t =
        (setSlot p (DECODE_INDEX h)
          { getSlot p (DECODE_INDEX h) with
              period := per % TICK_MOD,
              expire_time := u16_add t (per % TICK_MOD) }, TIMER_OK) := by
      rw [hstep, if_pos hac]
    rw [hstep']
    refine ⟨rfl, ?_, fun _ => ?_, fun hcon => ?_, ?_, ?_, ?_, ?_, ?_⟩
    · rw [getSlot_setSlot_same _ _ _ hb]
      exact hmod
    · rw [getSlot_setSlot_same _ _ _ hb]
      simp [u16_add, hmod]
    · rw [hac] at hcon
      exact absurd hcon (by simp)
    · rw [getSlot_setSlot_same _ _ _ hb]
    · rw [getSlot_setSlot_same _ _ _ hb]
    · rw [getSlot_setSlot_same _ _ _ hb]
    · rw [getSlot_setSlot_same _ _ _ hb]
    · intro j hj
      exact getSlot_setSlot_ne _ _ _ _ (fun e => hj e.symm)
  · have hacf : (getSlot p (DECODE_INDEX h)).active = false := by
      simpa using hac
    have hstep' : safetimer_set_period p h per t =
        (setSlot p (DECODE_INDEX h)
          { getSlot p (DECODE_INDEX h) with period := per % TICK_MOD }, TIMER_OK) := by
      rw [hstep, if_neg hac]
    rw [hstep']
    refine ⟨rfl, ?_, fun hcon => ?_, fun _ => ?_, ?_, ?_, ?_, ?_, ?_⟩
    · rw [getSlot_setSlot_same _ _ _ hb]
      exact hmod
    · rw [hacf] at hcon
      exact absurd hcon (by simp)
    · rw [getSlot_setSlot_same _ _ _ hb]
    · rw [getSlot_setSlot_same _ _ _ hb]
    · rw [getSlot_setSlot_same _ _ _ hb]
    · rw [getSlot_setSlot_same _ _ _ hb]
    · rw [getSlot_setSlot_same _ _ _ hb]
    · intro j hj
      exact getSlot_setSlot_ne _ _ _ _ (fun e => hj e.symm)

/-- C5: for a valid handle and a valid period, safetimer_set_period stores
the new period; if the timer is active it resets the phase to now
(expire_time = current_tick + new period, mod 2^16), and if inactive it
leaves expire_time untouched; the active flag, callback, mode, generation
and all other slots are unchanged. -/
theorem c5_set_period_semantics (p : safetimer_pool_t) (h : Int) (per t : Nat)
    (hval : validate_handle p h = true) (hper1 : 1 ≤ per) (hper2 : per ≤ 65535)
    (hlen : p.slots.length = MAX_TIMERS) :
    (safetimer_set_period p h per t).2 = TIMER_OK ∧
    (getSlot (safetimer_set_period p h per t).1 (DECODE_INDEX h)).period = per ∧
    ((getSlot p (DECODE_INDEX h)).active = true →
      (getSlot (safetimer_set_period p h per t).1 (DECODE_INDEX h)).expire_time =
        (t + per) % TICK_MOD) ∧
    ((getSlot p (DECODE_INDEX h)).active = false →
      (getSlot (safetimer_set_period p h per t).1 (DECODE_INDEX h)).expire_time =
        (getSlot p (DECODE_INDEX h)).expire_time) ∧
    (getSlot (safetimer_set_period p h per t).1 (DECODE_INDEX h)).active =
      (getSlot p (DECODE_INDEX h)).active ∧
    (getSlot (safetimer_set_period p h per t).1 (DECODE_INDEX h)).callback =
      (getSlot p (DECODE_INDEX h)).callback ∧
    (getSlot (safetimer_set_period p h per t).1 (DECODE_INDEX h)).mode =
      (getSlot p (DECODE_INDEX h)).mode ∧
    (getSlot (safetimer_set_period p h per t).1 (DECODE_INDEX h)).generation =
      (getSlot p (DECODE_INDEX h)).generation ∧
    (∀ j, j ≠ DECODE_INDEX h → getSlot (safetimer_set_period p h per t).1 j = getSlot p j) :=
  set_period_semantics_core p h per t hval hper1 hper2 hlen

/-- Witness for C5 on a concrete one-slot pool: set_period 200 at tick 50 on
an active timer moves the expiry to 250 and keeps it running. -/
theorem c5_set_period_semantics_witness :
    (safetimer_set_period
      { slots := [{ period := 100, expire_time := 100, callback := true, active := true,
                    mode := 1, generation := 1 }, default, default, default],
        used_bitmap := 1, next_generation := 1 } 4 200 50).2 = TIMER_OK ∧
    (getSlot (safetimer_set_period
      { slots := [{ period := 100, expire_time := 100, callback := true, active := true,
                    mode := 1, generation := 1 }, default, default, default],
        used_bitmap := 1, next_generation := 1 } 4 200 50).1 0).expire_time = 250 := by
  have h := c5_set_period_semantics
    { slots := [{ period := 100, expire_time := 100, callback := true, active := true,
                  mode := 1, generation := 1 }, default, default, default],
      used_bitmap := 1, next_generation := 1 } 4 200 50
    (by decide) (by decide) (by decide) (by decide)
  refine ⟨h.1, ?_⟩
  have := h.2.2.1 (by decide)
  simpa using this

/-- C10: safetimer_advance_period on a valid handle to an allocated but
inactive timer returns TIMER_OK, stores the new period, overwrites
expire_time with current_tick + period (mod 2^16) and leaves the timer
inactive — whereas safetimer_set_period on the same inactive timer leaves
expire_time untouched; neither call activates the timer. -/
theorem c10_advance_period_inactive (p : safetimer_pool_t) (h : Int) (per t : Nat)
    (hval : validate_handle p h = true) (hper1 : 1 ≤ per) (hper2 : per ≤ 65535)
    (hlen : p.slots.length = MAX_TIMERS)
    (hinact : (getSlot p (DECODE_INDEX h)).active = false) :
    (safetimer_advance_period p h per t).2 = TIMER_OK ∧
    (getSlot (safetimer_advance_period p h per t).1 (DECODE_INDEX h)).period = per ∧
    (getSlot (safetimer_advance_period p h per t).1 (DECODE_INDEX h)).expire_time =
      (t + per) % TICK_MOD ∧
    (getSlot (safetimer_advance_period p h per t).1 (DECODE_INDEX h)).active = false ∧
    (getSlot (safetimer_set_period p h per t).1 (DECODE_INDEX h)).expire_time =
      (getSlot p (DECODE_INDEX h)).expire_time ∧
    (getSlot (safetimer_set_period p h per t).1 (DECODE_INDEX h)).active = false := by
  have hb : DECODE_INDEX h < p.slots.length := by
    rw [hlen]; exact DECODE_INDEX_lt h
  have hc1 : ¬(per = 0 ∨ 2147483647 < per) := by omega
  have hc2 : ¬(65535 < per) := by omega
  have hmod : per % TICK_MOD = per := by
    unfold TICK_MOD
    omega
  have hstep : safetimer_advance_period p h per t =
      (setSlot p (DECODE_INDEX h)
        { getSlot p (DECODE_INDEX h) with
            period := per % TICK_MOD,
            expire_time := u16_add t (per % TICK_MOD) }, TIMER_OK) := by
    unfold safetimer_advance_period
    rw [if_neg hc1, if_neg hc2, hval]
    simp [hinact]
  obtain ⟨-, -, -, hsp_inact, hsp_active, -, -, -, -⟩ :=
    set_period_semantics_core p h per t hval hper1 hper2 hlen
  rw [hstep]
  rw [getSlot_setSlot_same _ _ _ hb]
  refine ⟨rfl, hmod, by simp [u16_add, hmod], hinact, hsp_inact hinact, ?_⟩
  rw [hsp_active, hinact]

/-- Witness for C10: advance_period 200 at tick 50 on a stopped timer whose
stale expiry was 100 re-bases the expiry to 250 without starting it, while
set_period keeps the stale expiry 100. -/
theorem c10_advance_period_inactive_witness :
    (getSlot (safetimer_advance_period
      { slots := [{ period := 100, expire_time := 100, callback := true, active := false,
                    mode := 1, generation := 1 }, default, default, default],
        used_bitmap := 1, next_generation := 1 } 4 200 50).1 0).expire_time = 250 ∧
    (getSlot (safetimer_set_period
      { slots := [{ period := 100, expire_time := 100, callback := true, active := false,
                    mode := 1, generation := 1 }, default, default, default],
        used_bitmap := 1, next_generation := 1 } 4 200 50).1 0).expire_time = 100 := by
  have h := c10_advance_period_inactive
    { slots := [{ period := 100, expire_time := 100, callback := true, active := false,
                  mode := 1, generation := 1 }, default, default, default],
      used_bitmap := 1, next_generation := 1 } 4 200 50
    (by decide) (by decide) (by decide) (by decide) (by decide)
  exact ⟨by simpa using h.2.2.1, by simpa using h.2.2.2.2.1⟩

theorem find_free_slot_none_iff (p : safetimer_pool_t) :
    find_free_slot p = none ↔ ∀ i < MAX_TIMERS, p.used_bitmap &&& (1 <<< i) ≠ 0 := by
  unfold find_free_slot
  rw [List.find?_eq_none]
  constructor
  · intro hall i hi hbit
    exact absurd (by simpa using hbit) (by simpa using hall i (List.mem_range.mpr hi))
  · intro hall i hi
    have := hall i (List.mem_range.mp hi)
    simpa using this

theorem ENCODE_HANDLE_ne_sentinel (gen idx : Nat) :
    ENCODE_HANDLE gen idx ≠ SAFETIMER_INVALID_HANDLE := by
  unfold ENCODE_HANDLE SAFETIMER_INVALID_HANDLE
  omega

/-- C6: safetimer_create returns the invalid-handle sentinel exactly when
the period is out of range for the 16-bit tick width (0 or above 65535),
the mode is neither ONE_SHOT nor REPEAT, or every slot is allocated; every
failing call leaves the pool (slots, bitmap, generation counter) unchanged;
the used count can never exceed MAX_TIMERS; and a create on a full pool
(used count = MAX_TIMERS) fails. -/
theorem c6_create_failure_characterisation :
    (∀ (p : safetimer_pool_t) (per mode : Nat) (cb : Bool),
      ((safetimer_create p per mode cb).2 = SAFETIMER_INVALID_HANDLE ↔
        per = 0 ∨ 65535 < per ∨ (mode ≠ TIMER_MODE_ONE_SHOT ∧ mode ≠ TIMER_MODE_REPEAT) ∨
        (∀ i < MAX_TIMERS, p.used_bitmap &&& (1 <<< i) ≠ 0)) ∧
      ((safetimer_create p per mode cb).2 = SAFETIMER_INVALID_HANDLE →
        (safetimer_create p per mode cb).1 = p)) ∧
    (∀ p : safetimer_pool_t, pool_used_count p ≤ MAX_TIMERS) ∧
    (∀ (p : safetimer_pool_t) (per mode : Nat) (cb : Bool),
      pool_used_count p = MAX_TIMERS →
      (safetimer_create p per mode cb).2 = SAFETIMER_INVALID_HANDLE) := by
  have hmain : ∀ (p : safetimer_pool_t) (per mode : Nat) (cb : Bool),
      ((safetimer_create p per mode cb).2 = SAFETIMER_INVALID_HANDLE ↔
        per = 0 ∨ 65535 < per ∨ (mode ≠ TIMER_MODE_ONE_SHOT ∧ mode ≠ TIMER_MODE_REPEAT) ∨
        (∀ i < MAX_TIMERS, p.used_bitmap &&& (1 <<< i) ≠ 0)) ∧
      ((safetimer_create p per mode cb).2 = SAFETIMER_INVALID_HANDLE →
        (safetimer_create p per mode cb).1 = p) := by
    intro p per mode cb
    by_cases h1 : per = 0 ∨ 2147483647 < per
    · have hres : safetimer_create p per mode cb = (p, SAFETIMER_INVALID_HANDLE) := by
        unfold safetimer_create
        rw [if_pos h1]
      rw [hres]
      refine ⟨⟨fun _ => ?_, fun _ => rfl⟩, fun _ => rfl⟩
      rcases h1 with h | h
      · exact Or.inl h
      · exact Or.inr (Or.inl (by omega))
    · by_cases h2 : 65535 < per
      · have hres : safetimer_create p per mode cb = (p, SAFETIMER_INVALID_HANDLE) := by
          unfold safetimer_create
          rw [if_neg h1, if_pos h2]
        rw [hres]
        exact ⟨⟨fun _ => Or.inr (Or.inl h2), fun _ => rfl⟩, fun _ => rfl⟩
      · by_cases h3 : mode ≠ TIMER_MODE_ONE_SHOT ∧ mode ≠ TIMER_MODE_REPEAT
        · have hres : safetimer_create p per mode cb = (p, SAFETIMER_INVALID_HANDLE) := by
            unfold safetimer_create
            rw [if_neg h1, if_neg h2, if_pos h3]
          rw [hres]
          exact ⟨⟨fun _ => Or.inr (Or.inr (Or.inl h3)), fun _ => rfl⟩, fun _ => rfl⟩
        · match hfind : find_free_slot p with
          | none =>
            have hres : safetimer_create p per mode cb = (p, SAFETIMER_INVALID_HANDLE) := by
              unfold safetimer_create
              rw [if_neg h1, if_neg h2, if_neg h3, hfind]
            rw [hres]
            refine ⟨⟨fun _ => ?_, fun _ => rfl⟩, fun _ => rfl⟩
            exact Or.inr (Or.inr (Or.inr ((find_free_slot_none_iff p).mp hfind)))
          | some slot_index =>
            have hres : (safetimer_create p per mode cb).2 =
                ENCODE_HANDLE (bump_generation p.next_generation) slot_index := by
              unfold safetimer_create
              rw [if_neg h1, if_neg h2, if_neg h3, hfind]
            have hne := ENCODE_HANDLE_ne_sentinel (bump_generation p.next_generation) slot_index
            have hfree : p.used_bitmap &&& (1 <<< slot_index) = 0 := by
              have := List.find?_some hfind
              simpa using this
            have hlt : slot_index < MAX_TIMERS := by
              have := List.mem_of_find?_eq_some hfind
              exact List.mem_range.mp this
            constructor
            · constructor
              · intro hcon
                rw [hres] at hcon
                exact absurd hcon hne
              · intro hcon
                rcases hcon with h | h | h | h
                · exact absurd h (by tauto)
                · exact absurd h h2
                · exact absurd h h3
                · exact absurd hfree (h slot_index hlt)
            · intro hcon
              rw [hres] at hcon
              exact absurd hcon hne
  refine ⟨hmain, ?_, ?_⟩
  · intro p
    have := List.countP_le_length
      (p := fun i => p.used_bitmap &&& (1 <<< i) != 0) (l := List.range MAX_TIMERS)
    simpa [pool_used_count] using this
  · intro p per mode cb hfull
    have hall : ∀ i < MAX_TIMERS, p.used_bitmap &&& (1 <<< i) ≠ 0 := by
      have hlen : (List.range MAX_TIMERS).length = MAX_TIMERS := List.length_range _
      have := List.countP_eq_length
        (p := fun i => p.used_bitmap &&& (1 <<< i) != 0) (l := List.range MAX_TIMERS)
      unfold pool_used_count at hfull
      rw [← hlen] at hfull
      have hsat := this.mp hfull
      intro i hi hbit
      have := hsat i (List.mem_range.mpr hi)
      simp [hbit] at this
    exact ((hmain p per mode cb).1).mpr (Or.inr (Or.inr (Or.inr hall)))

/-- Witness for C6: on the empty pool a create with period 0 fails and
changes nothing, while a full pool (all four bits set) rejects a fifth
create. -/
theorem c6_create_failure_characterisation_witness :
    (safetimer_create initial_pool 0 1 true).2 = SAFETIMER_INVALID_HANDLE ∧
    (safetimer_create initial_pool 0 1 true).1 = initial_pool ∧
    (safetimer_create
      { slots := List.replicate 4 default, used_bitmap := 15, next_generation := 4 }
      100 1 true).2 = SAFETIMER_INVALID_HANDLE := by
  refine ⟨?_, ?_, ?_⟩
  · exact ((c6_create_failure_characterisation.1 initial_pool 0 1 true).1).mpr (Or.inl rfl)
  · exact (c6_create_failure_characterisation.1 initial_pool 0 1 true).2
      (((c6_create_failure_characterisation.1 initial_pool 0 1 true).1).mpr (Or.inl rfl))
  · exact c6_create_failure_characterisation.2.2
      { slots := List.replicate 4 default, used_bitmap := 15, next_generation := 4 }
      100 1 true (by decide)

set_option maxRecDepth 100000 in
/-- C7: the claim (and the specification's ABA-safety design) says the
sentinel SAFETIMER_INVALID_HANDLE = -1 never passes handle validation.  The
code decodes -1 to slot index 3 with generation 63 (the low byte of the
two's-complement pattern), and generation 63 is legitimately assigned to
slot 3 after 63 allocations: after the c7_ops trace (every delete using the
handle returned for slot 3), validate_handle accepts the sentinel and both
safetimer_stop and safetimer_start succeed on it, mutating slot 3 — the
create-time collision loop only guards the encode direction, not decode
aliasing. -/
theorem c7_sentinel_validates_after_wrap :
    DECODE_INDEX SAFETIMER_INVALID_HANDLE = 3 ∧
    DECODE_GEN SAFETIMER_INVALID_HANDLE = 63 ∧
    (getSlot (runOps initial_pool c7_ops) 3).generation = 63 ∧
    validate_handle (runOps initial_pool c7_ops) SAFETIMER_INVALID_HANDLE = true ∧
    (safetimer_stop (runOps initial_pool c7_ops) SAFETIMER_INVALID_HANDLE).2 = TIMER_OK ∧
    (safetimer_start (runOps initial_pool c7_ops) SAFETIMER_INVALID_HANDLE 500).2 = TIMER_OK := by
  decide

set_option maxRecDepth 100000 in
/-- C2 counterexample: handle 4 is returned by the first create (slot 0,
generation 1) and then deleted; after 63 further successful creations (62
create/delete cycles on slot 0 followed by one final create) the generation
counter wraps and the new occupant of slot 0 again has generation 1, so the
long-deleted handle 4 validates against the new occupant and safetimer_stop
on it succeeds — refuting "the old handle's generation can never match the
new occupant's generation, however many creations happened in between". -/
theorem c2_stale_handle_validates_after_generation_wrap :
    (safetimer_create initial_pool 100 1 true).2 = 4 ∧
    (runOps initial_pool c2_ops).used_bitmap &&& (1 <<< DECODE_INDEX 4) ≠ 0 ∧
    (getSlot (runOps initial_pool c2_ops) 0).generation = 1 ∧
    validate_handle (runOps initial_pool c2_ops) 4 = true ∧
    (safetimer_stop (runOps initial_pool c2_ops) 4).2 = TIMER_OK := by
  decide

theorem getSlot_setSlot_cases (p : safetimer_pool_t) (i j : Nat) (s : timer_slot_t) :
    getSlot (setSlot p i s) j = getSlot p j ∨ (j = i ∧ getSlot (setSlot p i s) j = s) := by
  by_cases hj : j = i
  · subst hj
    by_cases hb : j < p.slots.length
    · exact Or.inr ⟨rfl, getSlot_setSlot_same _ _ _ hb⟩
    · left
      unfold getSlot setSlot
      rw [List.set_eq_of_length_le (by omega)]
  · exact Or.inl (getSlot_setSlot_ne _ _ _ _ (fun e => hj e.symm))

theorem trigger_timer_generation (s : timer_slot_t) (t : Nat) :
    (trigger_timer s t).generation = s.generation := by
  unfold trigger_timer
  simp only []
  split
  · rfl
  · split <;> rfl

theorem trigger_timer_active_mono (s : timer_slot_t) (t : Nat) :
    (trigger_timer s t).active = true → s.active = true := by
  unfold trigger_timer
  simp only []
  split
  · intro hcon
    exact absurd hcon (by simp)
  · split <;> exact fun h => h

theorem process_slot_next_generation (p : safetimer_pool_t) (i t : Nat) :
    (process_slot p i t).1.next_generation = p.next_generation := by
  unfold process_slot
  simp only []
  split
  · rfl
  · split <;> rfl

theorem process_slot_generation (p : safetimer_pool_t) (i t j : Nat) :
    (getSlot (process_slot p i t).1 j).generation = (getSlot p j).generation := by
  unfold process_slot
  simp only []
  split
  · rfl
  · split
    · rcases getSlot_setSlot_cases p i j (trigger_timer (getSlot p i) t) with hc | ⟨hji, hc⟩
      · rw [hc]
      · subst hji
        rw [hc, trigger_timer_generation]
    · rfl

theorem process_list_next_generation (t : Nat) (l : List Nat) :
    ∀ p : safetimer_pool_t, (process_list p t l).1.next_generation = p.next_generation := by
  induction l with
  | nil => intro p; rfl
  | cons i rest ih =>
    intro p
    show (process_list (process_slot p i t).1 t rest).1.next_generation = _
    rw [ih, process_slot_next_generation]

theorem process_list_generation (t : Nat) (l : List Nat) :
    ∀ (p : safetimer_pool_t) (j : Nat),
      (getSlot (process_list p t l).1 j).generation = (getSlot p j).generation := by
  induction l with
  | nil => intro p j; rfl
  | cons i rest ih =>
    intro p j
    show (getSlot (process_list (process_slot p i t).1 t rest).1 j).generation = _
    rw [ih, process_slot_generation]

theorem bump_generation_bounds (g : Nat) :
    1 ≤ bump_generation g ∧ bump_generation g ≤ 63 := by
  unfold bump_generation HANDLE_GEN_MAX
  simp only []
  split
  · omega
  · next hcond =>
    push_neg at hcond
    omega

theorem bumpIter_formula (k : Nat) : ∀ g, 1 ≤ g → g ≤ 63 →
    bumpIter k g = (g - 1 + k) % 63 + 1 := by
  induction k with
  | zero =>
    intro g hg1 hg2
    unfold bumpIter
    simp only [Function.iterate_zero, id]
    omega
  | succ n ih =>
    intro g hg1 hg2
    unfold bumpIter at *
    rw [Function.iterate_succ_apply' bump_generation n g, ih g hg1 hg2]
    unfold bump_generation HANDLE_GEN_MAX
    simp only []
    have h63 : (g - 1 + n) % 63 < 63 := Nat.mod_lt _ (by norm_num)
    have hsplit : (g - 1 + n) % 63 = 62 ∨ (g - 1 + n) % 63 < 62 := by omega
    rcases hsplit with hcase | hcase
    · rw [if_pos (by omega)]
      have : (g - 1 + (n + 1)) % 63 = 0 := by omega
      omega
    · rw [if_neg (by omega)]
      have : (g - 1 + (n + 1)) % 63 = (g - 1 + n) % 63 + 1 := by omega
      omega

theorem getSlot_setSlot_generation (p : safetimer_pool_t) (i j : Nat) (s : timer_slot_t)
    (hs : s.generation = (getSlot p i).generation) :
    (getSlot (setSlot p i s) j).generation = (getSlot p j).generation := by
  rcases getSlot_setSlot_cases p i j s with hc | ⟨hj, hc⟩
  · rw [hc]
  · subst hj
    rw [hc, hs]

theorem ops_fail_on_invalid (p : safetimer_pool_t) (h : Int) (per t : Nat)
    (hval : validate_handle p h = false) :
    safetimer_start p h t = (p, TIMER_ERR_INVALID) ∧
    safetimer_stop p h = (p, TIMER_ERR_INVALID) ∧
    safetimer_delete p h = (p, TIMER_ERR_INVALID) ∧
    safetimer_set_period p h per t = (p, TIMER_ERR_INVALID) ∧
    safetimer_advance_period p h per t = (p, TIMER_ERR_INVALID) ∧
    safetimer_get_status p h = (TIMER_ERR_INVALID, false) := by
  have hb : (!validate_handle p h) = true := by
    rw [hval]
    rfl
  refine ⟨?_, ?_, ?_, ?_, ?_, ?_⟩
  · unfold safetimer_start
    rw [if_pos hb]
  · unfold safetimer_stop
    rw [if_pos hb]
  · unfold safetimer_delete
    rw [if_pos hb]
  · unfold safetimer_set_period
    by_cases h1 : per = 0 ∨ 2147483647 < per
    · rw [if_pos h1]
    · rw [if_neg h1]
      by_cases h2 : 65535 < per
      · rw [if_pos h2]
      · rw [if_neg h2, if_pos hb]
  · unfold safetimer_advance_period
    by_cases h1 : per = 0 ∨ 2147483647 < per
    · rw [if_pos h1]
    · rw [if_neg h1]
      by_cases h2 : 65535 < per
      · rw [if_pos h2]
      · rw [if_neg h2, if_pos hb]
  · unfold safetimer_get_status
    rw [if_pos hb]

theorem create_success_effects (p : safetimer_pool_t) (per mode : Nat) (cb : Bool)
    (hlen : p.slots.length = MAX_TIMERS)
    (hsucc : (safetimer_create p per mode cb).2 ≠ SAFETIMER_INVALID_HANDLE) :
    (safetimer_create p per mode cb).1.next_generation = bump_generation p.next_generation ∧
    ∃ i, i < MAX_TIMERS ∧ p.used_bitmap &&& (1 <<< i) = 0 ∧
      (safetimer_create p per mode cb).2 = ENCODE_HANDLE (bump_generation p.next_generation) i ∧
      (getSlot (safetimer_create p per mode cb).1 i).generation =
        bump_generation p.next_generation ∧
      (getSlot (safetimer_create p per mode cb).1 i).active = false := by
  by_cases h1 : per = 0 ∨ 2147483647 < per
  · exfalso
    apply hsucc
    unfold safetimer_create
    rw [if_pos h1]
  by_cases h2 : 65535 < per
  · exfalso
    apply hsucc
    unfold safetimer_create
    rw [if_neg h1, if_pos h2]
  by_cases h3 : mode ≠ TIMER_MODE_ONE_SHOT ∧ mode ≠ TIMER_MODE_REPEAT
  · exfalso
    apply hsucc
    unfold safetimer_create
    rw [if_neg h1, if_neg h2, if_pos h3]
  match hfind : find_free_slot p with
  | none =>
    exfalso
    apply hsucc
    unfold safetimer_create
    rw [if_neg h1, if_neg h2, if_neg h3, hfind]
  | some slot_index =>
    have hres : safetimer_create p per mode cb =
        ({ slots := (setSlot p slot_index
              { getSlot p slot_index with
                  period := per % TICK_MOD,
                  mode := mode % 2,
                  callback := cb,
                  active := false,
                  generation := bump_generation p.next_generation % 64 }).slots,
           used_bitmap := p.used_bitmap ||| (1 <<< slot_index),
           next_generation := bump_generation p.next_generation },
         ENCODE_HANDLE (bump_generation p.next_generation) slot_index) := by
      unfold safetimer_create
      rw [if_neg h1, if_neg h2, if_neg h3, hfind]
    have hlt : slot_index < MAX_TIMERS :=
      List.mem_range.mp (List.mem_of_find?_eq_some hfind)
    have hfree : p.used_bitmap &&& (1 <<< slot_index) = 0 := by
      have := List.find?_some hfind
      simpa using this
    have hmod64 : bump_generation p.next_generation % 64 = bump_generation p.next_generation :=
      Nat.mod_eq_of_lt (by
        have := (bump_generation_bounds p.next_generation).2
        omega)
    have hbnd : slot_index < p.slots.length := by
      rw [hlen]
      exact hlt
    have hslot : getSlot (safetimer_create p per mode cb).1 slot_index =
        { getSlot p slot_index with
            period := per % TICK_MOD,
            mode := mode % 2,
            callback := cb,
            active := false,
            generation := bump_generation p.next_generation % 64 } := by
      rw [hres]
      show getSlot (setSlot p slot_index _) slot_index = _
      exact getSlot_setSlot_same _ _ _ hbnd
    refine ⟨by rw [hres], slot_index, hlt, hfree, by rw [hres], ?_, ?_⟩
    · rw [hslot]
      exact hmod64
    · rw [hslot]

theorem applyOp_non_create_generations (p : safetimer_pool_t) (op : PoolOp)
    (hnc : ∀ per mode cb, op ≠ PoolOp.create per mode cb) :
    (applyOp p op).next_generation = p.next_generation ∧
    ∀ j, (getSlot (applyOp p op) j).generation = (getSlot p j).generation := by
  cases op with
  | create per mode cb => exact absurd rfl (hnc per mode cb)
  | start h t =>
    have heq : applyOp p (.start h t) = (safetimer_start p h t).1 := rfl
    rw [heq]
    unfold safetimer_start
    split
    · exact ⟨rfl, fun j => rfl⟩
    · exact ⟨rfl, fun j => getSlot_setSlot_generation _ _ _ _ rfl⟩
  | stop h =>
    have heq : applyOp p (.stop h) = (safetimer_stop p h).1 := rfl
    rw [heq]
    unfold safetimer_stop
    split
    · exact ⟨rfl, fun j => rfl⟩
    · exact ⟨rfl, fun j => getSlot_setSlot_generation _ _ _ _ rfl⟩
  | delete h =>
    have heq : applyOp p (.delete h) = (safetimer_delete p h).1 := rfl
    rw [heq]
    unfold safetimer_delete
    split
    · exact ⟨rfl, fun j => rfl⟩
    · exact ⟨rfl, fun j => getSlot_setSlot_generation _ _ _ _ rfl⟩
  | setPeriod h per t =>
    have heq : applyOp p (.setPeriod h per t) = (safetimer_set_period p h per t).1 := rfl
    rw [heq]
    unfold safetimer_set_period
    simp only []
    split
    · exact ⟨rfl, fun j => rfl⟩
    split
    · exact ⟨rfl, fun j => rfl⟩
    split
    · exact ⟨rfl, fun j => rfl⟩
    split
    · exact ⟨rfl, fun j => getSlot_setSlot_generation _ _ _ _ rfl⟩
    · exact ⟨rfl, fun j => getSlot_setSlot_generation _ _ _ _ rfl⟩
  | advancePeriod h per t =>
    have heq : applyOp p (.advancePeriod h per t) = (safetimer_advance_period p h per t).1 := rfl
    rw [heq]
    unfold safetimer_advance_period
    simp only []
    split
    · exact ⟨rfl, fun j => rfl⟩
    split
    · exact ⟨rfl, fun j => rfl⟩
    split
    · exact ⟨rfl, fun j => rfl⟩
    split
    · split
      · exact ⟨rfl, fun j => getSlot_setSlot_generation _ _ _ _ rfl⟩
      · exact ⟨rfl, fun j => getSlot_setSlot_generation _ _ _ _ rfl⟩
    · exact ⟨rfl, fun j => getSlot_setSlot_generation _ _ _ _ rfl⟩
  | process t =>
    exact ⟨process_list_next_generation t (List.range MAX_TIMERS) p,
           fun j => process_list_generation t (List.range MAX_TIMERS) p j⟩

/-- C2 (amended): once a handle h has been deleted, every later operation
with h fails handle validation while the slot remains free, and after the
slot is reallocated it fails exactly while the new occupant's generation
differs from the generation encoded in h.  Generations are assigned only by
successful creates, each advancing the pool's counter by one step of the
cyclic successor on 1..63, so the deleted handle's generation can recur —
and the stale handle validate again — only after the counter completes a
full 63-step cycle; with between 1 and 62 intervening allocations the old
handle can never match the new occupant. -/
theorem c2_amended_stale_handle_rejection :
    (∀ (p : safetimer_pool_t) (h : Int) (per t : Nat),
      p.used_bitmap &&& (1 <<< DECODE_INDEX h) = 0 →
      validate_handle p h = false ∧
      safetimer_start p h t = (p, TIMER_ERR_INVALID) ∧
      safetimer_stop p h = (p, TIMER_ERR_INVALID) ∧
      safetimer_delete p h = (p, TIMER_ERR_INVALID) ∧
      safetimer_set_period p h per t = (p, TIMER_ERR_INVALID) ∧
      safetimer_advance_period p h per t = (p, TIMER_ERR_INVALID) ∧
      safetimer_get_status p h = (TIMER_ERR_INVALID, false)) ∧
    (∀ (p : safetimer_pool_t) (h : Int) (per t : Nat),
      DECODE_GEN h ≠ (getSlot p (DECODE_INDEX h)).generation →
      validate_handle p h = false ∧
      safetimer_start p h t = (p, TIMER_ERR_INVALID) ∧
      safetimer_stop p h = (p, TIMER_ERR_INVALID) ∧
      safetimer_delete p h = (p, TIMER_ERR_INVALID) ∧
      safetimer_set_period p h per t = (p, TIMER_ERR_INVALID) ∧
      safetimer_advance_period p h per t = (p, TIMER_ERR_INVALID) ∧
      safetimer_get_status p h = (TIMER_ERR_INVALID, false)) ∧
    (∀ (p : safetimer_pool_t) (per mode : Nat) (cb : Bool),
      p.slots.length = MAX_TIMERS →
      (safetimer_create p per mode cb).2 ≠ SAFETIMER_INVALID_HANDLE →
      (safetimer_create p per mode cb).1.next_generation =
        bump_generation p.next_generation ∧
      ∃ i, i < MAX_TIMERS ∧ p.used_bitmap &&& (1 <<< i) = 0 ∧
        (safetimer_create p per mode cb).2 =
          ENCODE_HANDLE (bump_generation p.next_generation) i ∧
        (getSlot (safetimer_create p per mode cb).1 i).generation =
          bump_generation p.next_generation ∧
        (getSlot (safetimer_create p per mode cb).1 i).active = false) ∧
    (∀ (p : safetimer_pool_t) (op : PoolOp),
      (∀ per mode cb, op ≠ PoolOp.create per mode cb) →
      (applyOp p op).next_generation = p.next_generation ∧
      ∀ j, (getSlot (applyOp p op) j).generation = (getSlot p j).generation) ∧
    (∀ g k, 1 ≤ g → g ≤ 63 → 1 ≤ k → k ≤ 62 → bumpIter k g ≠ g) ∧
    (∀ g, 1 ≤ g → g ≤ 63 → bumpIter 63 g = g) := by
  refine ⟨?_, ?_, create_success_effects, applyOp_non_create_generations, ?_, ?_⟩
  · intro p h per t hbit
    have hvf : validate_handle p h = false := by
      cases hvb : validate_handle p h with
      | false => rfl
      | true => exact absurd hbit ((validate_handle_iff p h).mp hvb).1
    exact ⟨hvf, ops_fail_on_invalid p h per t hvf⟩
  · intro p h per t hgen
    have hvf : validate_handle p h = false := by
      cases hvb : validate_handle p h with
      | false => rfl
      | true => exact absurd ((validate_handle_iff p h).mp hvb).2 hgen
    exact ⟨hvf, ops_fail_on_invalid p h per t hvf⟩
  · intro g k hg1 hg2 hk1 hk2
    rw [bumpIter_formula k g hg1 hg2]
    omega
  · intro g hg1 hg2
    rw [bumpIter_formula 63 g hg1 hg2]
    omega

/-- Witness for C2 (amended) at concrete inputs: handle 4 on the empty pool
fails validation and stop rejects it; five allocations after generation 1
the generation is 6, not 1 again. -/
theorem c2_amended_stale_handle_rejection_witness :
    validate_handle initial_pool 4 = false ∧
    safetimer_stop initial_pool 4 = (initial_pool, TIMER_ERR_INVALID) ∧
    bumpIter 5 1 ≠ 1 := by
  refine ⟨?_, ?_, ?_⟩
  · exact (c2_amended_stale_handle_rejection.1 initial_pool 4 1 0 (by decide)).1
  · exact (c2_amended_stale_handle_rejection.1 initial_pool 4 1 0 (by decide)).2.2.1
  · exact c2_amended_stale_handle_rejection.2.2.2.2.1 1 5 (by decide) (by decide)
      (by decide) (by decide)

theorem tick_diff_closed (a b : Nat) :
    safetimer_tick_diff a b = ((a : Int) - b + 32768) % 65536 - 32768 := by
  have hmod := u16_sub_emod a b
  have hlt := u16_sub_lt a b
  unfold TICK_MOD at hlt
  unfold safetimer_tick_diff toSigned16 TICK_MOD
  rw [Nat.mod_eq_of_lt hlt]
  split <;> omega

theorem tick_diff_small (a b : Nat) (hba : b ≤ a) (hd : a - b < 32768) :
    safetimer_tick_diff a b = ((a - b : Nat) : Int) := by
  rw [tick_diff_closed]
  omega

theorem trigger_timer_repeat (s : timer_slot_t) (t : Nat)
    (hmode : ¬ s.mode = TIMER_MODE_ONE_SHOT)
    (hexp : 0 ≤ safetimer_tick_diff t s.expire_time) :
    trigger_timer s t =
      { s with
          expire_time := u16_add s.expire_time
            (((safetimer_tick_diff t s.expire_time).toNat / s.period + 1) * s.period
              % 4294967296 % TICK_MOD) } := by
  unfold trigger_timer
  rw [if_neg hmode]
  simp only []
  rw [if_pos hexp]

theorem trigger_timer_repeat_active (s : timer_slot_t) (t : Nat)
    (hmode : ¬ s.mode = TIMER_MODE_ONE_SHOT) :
    (trigger_timer s t).active = s.active := by
  unfold trigger_timer
  rw [if_neg hmode]
  simp only []
  split <;> rfl

theorem fires_slot_repeat (s : timer_slot_t) (t : Nat)
    (hact : s.active = true) (hmode : s.mode = TIMER_MODE_REPEAT)
    (hcb : s.callback = true)
    (hexp : 0 ≤ safetimer_tick_diff t s.expire_time) :
    fires_slot s t = true := by
  have hne : ¬ s.mode = TIMER_MODE_ONE_SHOT := by
    rw [hmode]
    decide
  have hgen := trigger_timer_generation s t
  have hac : (trigger_timer s t).active = true := by
    rw [trigger_timer_repeat_active s t hne, hact]
  unfold fires_slot
  simp [hact, hcb, hexp, hgen, hac]

theorem fires_slot_one_shot (s : timer_slot_t) (t : Nat)
    (hact : s.active = true) (hmode : s.mode = TIMER_MODE_ONE_SHOT)
    (hcb : s.callback = true)
    (hexp : 0 ≤ safetimer_tick_diff t s.expire_time) :
    fires_slot s t = true := by
  have hgen := trigger_timer_generation s t
  have hmr : (TIMER_MODE_ONE_SHOT != TIMER_MODE_REPEAT) = true := by decide
  unfold fires_slot
  rw [hmode]
  simp [hact, hcb, hexp, hgen, hmr]

theorem fires_slot_inactive (s : timer_slot_t) (t : Nat)
    (hact : s.active = false) : fires_slot s t = false := by
  unfold fires_slot
  rw [hact]
  simp

theorem process_fired_count (p : safetimer_pool_t) (T i : Nat)
    (hlen : p.slots.length = MAX_TIMERS) (hi : i < MAX_TIMERS) :
    (safetimer_process p T).2.count i =
      if fires_slot (getSlot p i) T then 1 else 0 := by
  obtain ⟨-, hfire, -, -, -⟩ := safetimer_process_spec p T hlen
  rw [hfire]
  by_cases hf : fires_slot (getSlot p i) T
  · rw [if_pos hf, List.count_filter (by simpa using hf)]
    exact List.count_eq_one_of_mem (List.nodup_range _) (List.mem_range.mpr hi)
  · rw [if_neg hf]
    apply List.count_eq_zero.mpr
    intro hmem
    exact hf (by simpa using List.of_mem_filter hmem)

/-- C3 counterexample: the claim says the late REPEAT timer's expiry is
advanced to the smallest whole multiple of P from the original phase that
is at or beyond T.  With period 100, expiry 100 and a single process()
call at T = 400, the phase multiple 400 = 100 + 3 * 100 is at T, but the
code advances to 500 (it always moves strictly beyond T). -/
theorem c3_counterexample_expiry_beyond_T :
    (safetimer_process c3_pool 400).2 = [0] ∧
    (getSlot (safetimer_process c3_pool 400).1 0).expire_time = 500 ∧
    100 + 3 * 100 = 400 ∧ (400 : Nat) ≤ 400 ∧ (500 : Nat) ≠ 400 := by
  refine ⟨?_, ?_, by norm_num, le_refl _, by norm_num⟩ <;> decide

/-- C3 (amended): in the default coalesce configuration, when
safetimer_process runs at tick T at which an active REPEAT timer with
period P and expiry E has expired (any number of periods late), its
callback is invoked exactly once in that call, and its expiry is advanced
by whole multiples of P from the original phase to the smallest such
multiple strictly beyond T (the side conditions keep the scenario inside
the signed half-range of the 16-bit tick type, where the wraparound
comparison is faithful to plain arithmetic). -/
theorem c3_amended_repeat_coalescing (p : safetimer_pool_t) (i T : Nat)
    (hlen : p.slots.length = MAX_TIMERS) (hi : i < MAX_TIMERS)
    (hact : (getSlot p i).active = true)
    (hmode : (getSlot p i).mode = TIMER_MODE_REPEAT)
    (hcb : (getSlot p i).callback = true)
    (hP : 1 ≤ (getSlot p i).period)
    (hET : (getSlot p i).expire_time ≤ T)
    (hdiff : T - (getSlot p i).expire_time < 32768)
    (hfit : (getSlot p i).expire_time +
        ((T - (getSlot p i).expire_time) / (getSlot p i).period + 1) *
          (getSlot p i).period < 65536) :
    (safetimer_process p T).2.count i = 1 ∧
    (getSlot (safetimer_process p T).1 i).expire_time =
      (getSlot p i).expire_time +
        ((T - (getSlot p i).expire_time) / (getSlot p i).period + 1) *
          (getSlot p i).period ∧
    (∃ k : Nat, 1 ≤ k ∧
      (getSlot (safetimer_process p T).1 i).expire_time =
        (getSlot p i).expire_time + k * (getSlot p i).period ∧
      T < (getSlot p i).expire_time + k * (getSlot p i).period ∧
      (getSlot p i).expire_time + (k - 1) * (getSlot p i).period ≤ T) ∧
    (getSlot (safetimer_process p T).1 i).active = true ∧
    (getSlot (safetimer_process p T).1 i).period = (getSlot p i).period := by
  have hexp : 0 ≤ safetimer_tick_diff T (getSlot p i).expire_time := by
    rw [tick_diff_small T (getSlot p i).expire_time hET hdiff]
    positivity
  have hne : ¬ (getSlot p i).mode = TIMER_MODE_ONE_SHOT := by
    rw [hmode]
    decide
  obtain ⟨hget, -, -, -, -⟩ := safetimer_process_spec p T hlen
  have hslot : getSlot (safetimer_process p T).1 i = step_slot (getSlot p i) T := by
    rw [hget i, if_pos hi]
  have hstep : step_slot (getSlot p i) T = trigger_timer (getSlot p i) T := by
    unfold step_slot
    rw [if_pos ⟨hact, hexp⟩]
  have htrig := trigger_timer_repeat (getSlot p i) T hne hexp
  have hlag : (safetimer_tick_diff T (getSlot p i).expire_time).toNat =
      T - (getSlot p i).expire_time := by
    rw [tick_diff_small T (getSlot p i).expire_time hET hdiff]
    exact Int.toNat_natCast _
  have hmissed : ((T - (getSlot p i).expire_time) / (getSlot p i).period + 1) *
      (getSlot p i).period % 4294967296 % TICK_MOD =
      ((T - (getSlot p i).expire_time) / (getSlot p i).period + 1) *
        (getSlot p i).period := by
    unfold TICK_MOD
    omega
  have hexpire : (getSlot (safetimer_process p T).1 i).expire_time =
      (getSlot p i).expire_time +
        ((T - (getSlot p i).expire_time) / (getSlot p i).period + 1) *
          (getSlot p i).period := by
    rw [hslot, hstep, htrig]
    show u16_add (getSlot p i).expire_time _ = _
    rw [hlag, hmissed]
    unfold u16_add TICK_MOD
    omega
  have hdm := Nat.div_add_mod (T - (getSlot p i).expire_time) (getSlot p i).period
  have hmlt : (T - (getSlot p i).expire_time) % (getSlot p i).period <
      (getSlot p i).period := Nat.mod_lt _ (by omega)
  refine ⟨?_, hexpire, ?_, ?_, ?_⟩
  · rw [process_fired_count p T i hlen hi,
        if_pos (fires_slot_repeat (getSlot p i) T hact hmode hcb hexp)]
  · have hPpos : 0 < (getSlot p i).period := by omega
    have hupper : T - (getSlot p i).expire_time <
        (T - (getSlot p i).expire_time) / (getSlot p i).period * (getSlot p i).period +
          (getSlot p i).period :=
      Nat.lt_div_mul_add hPpos
    have hlower := Nat.div_mul_le_self (T - (getSlot p i).expire_time) (getSlot p i).period
    refine ⟨(T - (getSlot p i).expire_time) / (getSlot p i).period + 1,
      Nat.succ_le_succ (Nat.zero_le _), hexpire, ?_, ?_⟩
    · have hdistr : ((T - (getSlot p i).expire_time) / (getSlot p i).period + 1) *
          (getSlot p i).period =
          (T - (getSlot p i).expire_time) / (getSlot p i).period * (getSlot p i).period +
            (getSlot p i).period := by
        ring
      rw [hdistr]
      generalize hQP : (T - (getSlot p i).expire_time) / (getSlot p i).period *
          (getSlot p i).period = QP at hupper ⊢
      omega
    · have hk1 : (T - (getSlot p i).expire_time) / (getSlot p i).period + 1 - 1 =
          (T - (getSlot p i).expire_time) / (getSlot p i).period := Nat.succ_sub_one _
      rw [hk1]
      generalize hQP : (T - (getSlot p i).expire_time) / (getSlot p i).period *
          (getSlot p i).period = QP at hlower ⊢
      omega
  · rw [hslot, hstep, htrig]
    show (getSlot p i).active = true
    exact hact
  · rw [hslot, hstep, htrig]

/-- Witness for C3 (amended) at the specification's own example: period
100, started at tick 0 (expiry 100), first processed at T = 350 — one
callback, next expiry 400. -/
theorem c3_amended_repeat_coalescing_witness :
    (safetimer_process c3_pool 350).2.count 0 = 1 ∧
    (getSlot (safetimer_process c3_pool 350).1 0).expire_time = 400 := by
  have h := c3_amended_repeat_coalescing c3_pool 0 350 (by decide) (by decide)
    (by decide) (by decide) (by decide) (by decide) (by decide) (by decide) (by decide)
  exact ⟨h.1, by simpa using h.2.1⟩

theorem trigger_timer_one_shot (s : timer_slot_t) (t : Nat)
    (hmode : s.mode = TIMER_MODE_ONE_SHOT) :
    trigger_timer s t = { s with active := false } := by
  unfold trigger_timer
  rw [if_pos hmode]

theorem getSlot_setSlot_active (p : safetimer_pool_t) (i j : Nat) (s : timer_slot_t)
    (hs : s.active = true → (getSlot p i).active = true) :
    (getSlot (setSlot p i s) j).active = true → (getSlot p j).active = true := by
  intro hj
  rcases getSlot_setSlot_cases p i j s with hc | ⟨hji, hc⟩
  · rw [hc] at hj
    exact hj
  · subst hji
    rw [hc] at hj
    exact hs hj

theorem process_slot_active_mono (p : safetimer_pool_t) (i t j : Nat) :
    (getSlot (process_slot p i t).1 j).active = true → (getSlot p j).active = true := by
  unfold process_slot
  simp only []
  split
  · exact fun h => h
  split
  · exact getSlot_setSlot_active p i j _ (trigger_timer_active_mono _ _)
  · exact fun h => h

theorem process_list_active_mono (t : Nat) (l : List Nat) :
    ∀ (p : safetimer_pool_t) (j : Nat),
      (getSlot (process_list p t l).1 j).active = true → (getSlot p j).active = true := by
  induction l with
  | nil => exact fun p j h => h
  | cons i rest ih =>
    intro p j hj
    exact process_slot_active_mono p i t j (ih (process_slot p i t).1 j hj)

/-- C8: a started ONE_SHOT timer fires exactly once.  (a) The first
process() call at a tick at which it has expired invokes its callback
exactly once and clears the active flag; (b) any process() call on an
inactive slot invokes it zero times and leaves it inactive; (c) the status
query on a valid handle to the inactive timer reports not running; (d) no
public operation other than safetimer_start on that slot's handle can make
the slot active again. -/
theorem c8_one_shot_fires_exactly_once :
    (∀ (p : safetimer_pool_t) (i T : Nat),
      p.slots.length = MAX_TIMERS → i < MAX_TIMERS →
      (getSlot p i).active = true →
      (getSlot p i).mode = TIMER_MODE_ONE_SHOT →
      (getSlot p i).callback = true →
      0 ≤ safetimer_tick_diff T (getSlot p i).expire_time →
      (safetimer_process p T).2.count i = 1 ∧
      (getSlot (safetimer_process p T).1 i).active = false) ∧
    (∀ (p : safetimer_pool_t) (i T : Nat),
      p.slots.length = MAX_TIMERS → i < MAX_TIMERS →
      (getSlot p i).active = false →
      (safetimer_process p T).2.count i = 0 ∧
      (getSlot (safetimer_process p T).1 i).active = false) ∧
    (∀ (p : safetimer_pool_t) (h : Int),
      validate_handle p h = true →
      (getSlot p (DECODE_INDEX h)).active = false →
      safetimer_get_status p h = (TIMER_OK, false)) ∧
    (∀ (p : safetimer_pool_t) (op : PoolOp) (i : Nat),
      (getSlot (applyOp p op) i).active = true →
      (getSlot p i).active = true ∨
        ∃ ht tt, op = PoolOp.start ht tt ∧ DECODE_INDEX ht = i) := by
  refine ⟨?_, ?_, ?_, ?_⟩
  · intro p i T hlen hi hact hmode hcb hexp
    obtain ⟨hget, -, -, -, -⟩ := safetimer_process_spec p T hlen
    have hslot : getSlot (safetimer_process p T).1 i = step_slot (getSlot p i) T := by
      rw [hget i, if_pos hi]
    have hstep : step_slot (getSlot p i) T = { getSlot p i with active := false } := by
      unfold step_slot
      rw [if_pos ⟨hact, hexp⟩, trigger_timer_one_shot _ _ hmode]
    refine ⟨?_, ?_⟩
    · rw [process_fired_count p T i hlen hi,
          if_pos (fires_slot_one_shot (getSlot p i) T hact hmode hcb hexp)]
    · rw [hslot, hstep]
  · intro p i T hlen hi hact
    obtain ⟨hget, -, -, -, -⟩ := safetimer_process_spec p T hlen
    have hslot : getSlot (safetimer_process p T).1 i = step_slot (getSlot p i) T := by
      rw [hget i, if_pos hi]
    have hstep : step_slot (getSlot p i) T = getSlot p i := by
      unfold step_slot
      rw [if_neg (fun hcon => by rw [hact] at hcon; exact Bool.false_ne_true hcon.1)]
    refine ⟨?_, ?_⟩
    · rw [process_fired_count p T i hlen hi, if_neg ?_]
      rw [fires_slot_inactive (getSlot p i) T hact]
      exact Bool.false_ne_true
    · rw [hslot, hstep, hact]
  · intro p h hval hinact
    unfold safetimer_get_status
    rw [hval]
    simp [hinact]
  · intro p op i
    cases op with
    | create per mode cb =>
      intro hact
      left
      revert hact
      show (getSlot (safetimer_create p per mode cb).1 i).active = true → _
      unfold safetimer_create
      split
      · exact fun h => h
      split
      · exact fun h => h
      split
      · exact fun h => h
      split
      · exact fun h => h
      · next slot_index heq =>
        intro hact
        show (getSlot p i).active = true
        have hact' : (getSlot (setSlot p slot_index
            { getSlot p slot_index with
                period := per % TICK_MOD, mode := mode % 2, callback := cb,
                active := false,
                generation := bump_generation p.next_generation % 64 }) i).active = true := hact
        rcases getSlot_setSlot_cases p slot_index i
            { getSlot p slot_index with
                period := per % TICK_MOD, mode := mode % 2, callback := cb,
                active := false,
                generation := bump_generation p.next_generation % 64 } with hc | ⟨hji, hc⟩
        · rw [hc] at hact'
          exact hact'
        · rw [hc] at hact'
          exact absurd hact' (by simp)
    | start ht tt =>
      intro hact
      revert hact
      show (getSlot (safetimer_start p ht tt).1 i).active = true → _
      unfold safetimer_start
      split
      · exact fun h => Or.inl h
      · intro hact
        rcases getSlot_setSlot_cases p (DECODE_INDEX ht) i _ with hc | ⟨hji, hc⟩
        · exact Or.inl (hc ▸ hact)
        · exact Or.inr ⟨ht, tt, rfl, hji.symm⟩
    | stop ht =>
      intro hact
      left
      revert hact
      show (getSlot (safetimer_stop p ht).1 i).active = true → _
      unfold safetimer_stop
      split
      · exact fun h => h
      · apply getSlot_setSlot_active
        intro hcon
        exact absurd hcon (by simp)
    | delete ht =>
      intro hact
      left
      revert hact
      show (getSlot (safetimer_delete p ht).1 i).active = true → _
      unfold safetimer_delete
      split
      · exact fun h => h
      · apply getSlot_setSlot_active
        intro hcon
        exact absurd hcon (by simp)
    | setPeriod ht per tt =>
      intro hact
      left
      revert hact
      show (getSlot (safetimer_set_period p ht per tt).1 i).active = true → _
      unfold safetimer_set_period
      simp only []
      split
      · exact fun h => h
      split
      · exact fun h => h
      split
      · exact fun h => h
      split
      · exact getSlot_setSlot_active p (DECODE_INDEX ht) i _ (fun h => h)
      · exact getSlot_setSlot_active p (DECODE_INDEX ht) i _ (fun h => h)
    | advancePeriod ht per tt =>
      intro hact
      left
      revert hact
      show (getSlot (safetimer_advance_period p ht per tt).1 i).active = true → _
      unfold safetimer_advance_period
      simp only []
      split
      · exact fun h => h
      split
      · exact fun h => h
      split
      · exact fun h => h
      split
      · split
        · exact getSlot_setSlot_active p (DECODE_INDEX ht) i _ (fun h => h)
        · exact getSlot_setSlot_active p (DECODE_INDEX ht) i _ (fun h => h)
      · exact getSlot_setSlot_active p (DECODE_INDEX ht) i _ (fun h => h)
    | process tt =>
      intro hact
      exact Or.inl (process_list_active_mono tt (List.range MAX_TIMERS) p i hact)

/-- Witness for C8 at the concrete ONE_SHOT pool: processing at tick 100
fires once and deactivates; processing the resulting pool again at tick 200
fires zero times and the timer stays inactive; the status query on handle 4
reports not running. -/
theorem c8_one_shot_fires_exactly_once_witness :
    (safetimer_process c8_pool 100).2.count 0 = 1 ∧
    (getSlot (safetimer_process c8_pool 100).1 0).active = false ∧
    (safetimer_process (safetimer_process c8_pool 100).1 200).2.count 0 = 0 ∧
    safetimer_get_status (safetimer_process c8_pool 100).1 4 = (TIMER_OK, false) := by
  have h1 := c8_one_shot_fires_exactly_once.1 c8_pool 0 100 (by decide) (by decide)
    (by decide) (by decide) (by decide) (by decide)
  have h2 := c8_one_shot_fires_exactly_once.2.1 (safetimer_process c8_pool 100).1 0 200
    (by decide) (by decide) (by decide)
  have h3 := c8_one_shot_fires_exactly_once.2.2.1 (safetimer_process c8_pool 100).1 4
    (by decide) (by decide)
  exact ⟨h1.1, h1.2, h2.1, h3⟩

theorem tick_diff_self (a : Nat) : safetimer_tick_diff a a = 0 := by
  rw [tick_diff_closed]
  omega

theorem advance_period_active_future (p : safetimer_pool_t) (h : Int) (per t : Nat)
    (hc1 : ¬(per = 0 ∨ 2147483647 < per)) (hc2 : ¬ 65535 < per)
    (hval : validate_handle p h = true)
    (hact : (getSlot p (DECODE_INDEX h)).active = true)
    (hlag : safetimer_tick_diff t
      (u16_add (u16_sub (getSlot p (DECODE_INDEX h)).expire_time
        (getSlot p (DECODE_INDEX h)).period) (per % TICK_MOD)) < 0) :
    safetimer_advance_period p h per t =
      (setSlot p (DECODE_INDEX h)
        { getSlot p (DECODE_INDEX h) with
            period := per % TICK_MOD,
            expire_time := u16_add (u16_sub (getSlot p (DECODE_INDEX h)).expire_time
              (getSlot p (DECODE_INDEX h)).period) (per % TICK_MOD) }, TIMER_OK) := by
  unfold safetimer_advance_period
  rw [if_neg hc1, if_neg hc2, hval]
  simp only []
  rw [if_pos hact, if_neg (not_le.mpr hlag)]
  simp

theorem advance_period_active_catchup (p : safetimer_pool_t) (h : Int) (per t : Nat)
    (hc1 : ¬(per = 0 ∨ 2147483647 < per)) (hc2 : ¬ 65535 < per)
    (hval : validate_handle p h = true)
    (hact : (getSlot p (DECODE_INDEX h)).active = true)
    (hlag : 0 ≤ safetimer_tick_diff t
      (u16_add (u16_sub (getSlot p (DECODE_INDEX h)).expire_time
        (getSlot p (DECODE_INDEX h)).period) (per % TICK_MOD))) :
    safetimer_advance_period p h per t =
      (setSlot p (DECODE_INDEX h)
        { getSlot p (DECODE_INDEX h) with
            period := per % TICK_MOD,
            expire_time := u16_add
              (u16_add (u16_sub (getSlot p (DECODE_INDEX h)).expire_time
                (getSlot p (DECODE_INDEX h)).period) (per % TICK_MOD))
              (((safetimer_tick_diff t
                  (u16_add (u16_sub (getSlot p (DECODE_INDEX h)).expire_time
                    (getSlot p (DECODE_INDEX h)).period) (per % TICK_MOD))).toNat / per + 1)
                * per % 4294967296 % TICK_MOD) }, TIMER_OK) := by
  unfold safetimer_advance_period
  rw [if_neg hc1, if_neg hc2, hval]
  simp only []
  rw [if_pos hact, if_pos hlag]
  simp

theorem drift_cycle_boundary (h : Int) (P g A : Nat) (q : safetimer_pool_t)
    (hP1 : 1 ≤ P) (hP2 : P ≤ 32767) (hgen : DECODE_GEN h = g)
    (hlen : q.slots.length = MAX_TIMERS)
    (hbit : q.used_bitmap &&& (1 <<< DECODE_INDEX h) ≠ 0)
    (hslot : getSlot q (DECODE_INDEX h) =
      { period := P, expire_time := A % TICK_MOD, callback := true,
        active := true, mode := TIMER_MODE_REPEAT, generation := g }) :
    (drift_cycle h P (A % TICK_MOD) q).2 = 1 ∧
    getSlot (drift_cycle h P (A % TICK_MOD) q).1 (DECODE_INDEX h) =
      { period := P, expire_time := (A + P) % TICK_MOD, callback := true,
        active := true, mode := TIMER_MODE_REPEAT, generation := g } ∧
    (drift_cycle h P (A % TICK_MOD) q).1.used_bitmap &&& (1 <<< DECODE_INDEX h) ≠ 0 ∧
    (drift_cycle h P (A % TICK_MOD) q).1.slots.length = MAX_TIMERS := by
  have hi : DECODE_INDEX h < MAX_TIMERS := DECODE_INDEX_lt h
  have hexp : 0 ≤ safetimer_tick_diff (A % TICK_MOD)
      (getSlot q (DECODE_INDEX h)).expire_time := by
    rw [hslot]
    show 0 ≤ safetimer_tick_diff (A % TICK_MOD) (A % TICK_MOD)
    rw [tick_diff_self]
  obtain ⟨hget, -, hbm, -, hln⟩ := safetimer_process_spec q (A % TICK_MOD) hlen
  have hact : (getSlot q (DECODE_INDEX h)).active = true := by rw [hslot]
  have hmode : (getSlot q (DECODE_INDEX h)).mode = TIMER_MODE_REPEAT := by rw [hslot]
  have hcb : (getSlot q (DECODE_INDEX h)).callback = true := by rw [hslot]
  have hne : ¬ (getSlot q (DECODE_INDEX h)).mode = TIMER_MODE_ONE_SHOT := by
    rw [hmode]
    decide
  have hcount : (safetimer_process q (A % TICK_MOD)).2.count (DECODE_INDEX h) = 1 := by
    rw [process_fired_count q (A % TICK_MOD) (DECODE_INDEX h) hlen hi,
        if_pos (fires_slot_repeat _ _ hact hmode hcb hexp)]
  have hsafter : getSlot (safetimer_process q (A % TICK_MOD)).1 (DECODE_INDEX h) =
      { period := P, expire_time := (A + P) % TICK_MOD, callback := true,
        active := true, mode := TIMER_MODE_REPEAT, generation := g } := by
    rw [hget _, if_pos hi]
    unfold step_slot
    rw [if_pos ⟨hact, hexp⟩, trigger_timer_repeat _ _ hne hexp, hslot]
    show ({ period := P, expire_time := _, callback := true, active := true,
            mode := TIMER_MODE_REPEAT, generation := g } : timer_slot_t) = _
    simp only [timer_slot_t.mk.injEq, and_true, true_and]
    rw [tick_diff_self]
    rw [show ((0 : Int).toNat / P + 1) * P = P by
      rw [Int.toNat_zero, Nat.zero_div]
      ring]
    unfold u16_add TICK_MOD
    omega
  have hval2 : validate_handle (safetimer_process q (A % TICK_MOD)).1 h = true := by
    rw [validate_handle_iff]
    constructor
    · rw [hbm]
      exact hbit
    · rw [hsafter]
      exact hgen
  have hact2 : (getSlot (safetimer_process q (A % TICK_MOD)).1 (DECODE_INDEX h)).active = true := by
    rw [hsafter]
  have hc1 : ¬(P = 0 ∨ 2147483647 < P) := by omega
  have hc2 : ¬ 65535 < P := by omega
  have hbase : u16_add (u16_sub
      (getSlot (safetimer_process q (A % TICK_MOD)).1 (DECODE_INDEX h)).expire_time
      (getSlot (safetimer_process q (A % TICK_MOD)).1 (DECODE_INDEX h)).period)
      (P % TICK_MOD) = (A + P) % TICK_MOD := by
    rw [hsafter]
    show u16_add (u16_sub ((A + P) % TICK_MOD) P) (P % TICK_MOD) = _
    have hsub := u16_sub_emod ((A + P) % TICK_MOD) P
    unfold u16_add
    unfold TICK_MOD at *
    omega
  have hlag : safetimer_tick_diff (A % TICK_MOD)
      (u16_add (u16_sub
        (getSlot (safetimer_process q (A % TICK_MOD)).1 (DECODE_INDEX h)).expire_time
        (getSlot (safetimer_process q (A % TICK_MOD)).1 (DECODE_INDEX h)).period)
        (P % TICK_MOD)) < 0 := by
    rw [hbase, tick_diff_closed]
    unfold TICK_MOD
    omega
  have hadv := advance_period_active_future (safetimer_process q (A % TICK_MOD)).1 h P
    (A % TICK_MOD) hc1 hc2 hval2 hact2 hlag
  have hbnd2 : DECODE_INDEX h < (safetimer_process q (A % TICK_MOD)).1.slots.length := by
    rw [hln, hlen]
    exact hi
  have hres : (drift_cycle h P (A % TICK_MOD) q).1 =
      setSlot (safetimer_process q (A % TICK_MOD)).1 (DECODE_INDEX h)
        { getSlot (safetimer_process q (A % TICK_MOD)).1 (DECODE_INDEX h) with
            period := P % TICK_MOD,
            expire_time := u16_add (u16_sub
              (getSlot (safetimer_process q (A % TICK_MOD)).1 (DECODE_INDEX h)).expire_time
              (getSlot (safetimer_process q (A % TICK_MOD)).1 (DECODE_INDEX h)).period)
              (P % TICK_MOD) } := by
    show (safetimer_advance_period (safetimer_process q (A % TICK_MOD)).1 h P (A % TICK_MOD)).1 = _
    rw [hadv]
  refine ⟨hcount, ?_, ?_, ?_⟩
  · rw [hres, getSlot_setSlot_same _ _ _ hbnd2, hbase, hsafter]
    simp only [timer_slot_t.mk.injEq, and_true, true_and]
    unfold TICK_MOD
    omega
  · rw [hres, setSlot_used_bitmap, hbm]
    exact hbit
  · rw [hres, setSlot_length, hln, hlen]

theorem run_cycles_invariant (h : Int) (P t0 g : Nat)
    (hP1 : 1 ≤ P) (hP2 : P ≤ 32767) (hgen : DECODE_GEN h = g) :
    ∀ (n : Nat) (p : safetimer_pool_t),
      p.slots.length = MAX_TIMERS →
      p.used_bitmap &&& (1 <<< DECODE_INDEX h) ≠ 0 →
      getSlot p (DECODE_INDEX h) =
        { period := P, expire_time := (t0 + P) % TICK_MOD, callback := true,
          active := true, mode := TIMER_MODE_REPEAT, generation := g } →
      (run_cycles h P t0 n p).2 = n ∧
      getSlot (run_cycles h P t0 n p).1 (DECODE_INDEX h) =
        { period := P, expire_time := (t0 + (n + 1) * P) % TICK_MOD, callback := true,
          active := true, mode := TIMER_MODE_REPEAT, generation := g } ∧
      (run_cycles h P t0 n p).1.used_bitmap &&& (1 <<< DECODE_INDEX h) ≠ 0 ∧
      (run_cycles h P t0 n p).1.slots.length = MAX_TIMERS := by
  intro n
  induction n with
  | zero =>
    intro p hlen hbit hslot
    refine ⟨rfl, ?_, hbit, hlen⟩
    show getSlot p (DECODE_INDEX h) = _
    rw [hslot]
    norm_num
  | succ n ih =>
    intro p hlen hbit hslot
    obtain ⟨ihc, ihs, ihb, ihl⟩ := ih p hlen hbit hslot
    obtain ⟨hc, hs, hb, hl⟩ := drift_cycle_boundary h P g (t0 + (n + 1) * P)
      (run_cycles h P t0 n p).1 hP1 hP2 hgen ihl ihb ihs
    have hring : t0 + (n + 1) * P + P = t0 + (n + 1 + 1) * P := by ring
    rw [hring] at hs
    simp only [run_cycles]
    exact ⟨by rw [ihc, hc], hs, hb, hl⟩

/-- C4 counterexample: the claim quantifies over every valid new period up
to the representable maximum (65535 for 16-bit ticks), but for a new period
above half the tick range the signed-difference classification that defines
"in the future" breaks down.  With slot 0 active (old period 100, old
expiry 26636) and current tick 1000, the re-anchored instant
(26636 - 100) + 40000 wraps to exactly 1000, the code performs its single
catch-up jump to 41000, and the resulting expiry still classifies as
already reached (tick_diff 1000 41000 = 25536 is nonnegative): the expiry
has not been advanced "by whole multiples of P_new until it is in the
future". -/
theorem c4_counterexample_large_period :
    validate_handle c4_pool 4 = true ∧
    (getSlot c4_pool 0).active = true ∧
    (1 : Nat) ≤ 40000 ∧ (40000 : Nat) ≤ 65535 ∧
    u16_add (u16_sub (getSlot c4_pool 0).expire_time (getSlot c4_pool 0).period) 40000 = 1000 ∧
    (safetimer_advance_period c4_pool 4 40000 1000).2 = TIMER_OK ∧
    (getSlot (safetimer_advance_period c4_pool 4 40000 1000).1 0).expire_time = 41000 ∧
    0 ≤ safetimer_tick_diff 1000 41000 := by
  refine ⟨?_, ?_, ?_, ?_, ?_, ?_, ?_, ?_⟩ <;> decide

/-- C4 (amended, restricted to new periods of at most 32767 = half the
16-bit tick range, where the signed-difference order is meaningful): for a
valid handle to an active timer, advance_period anchors the new expiry at
the previous scheduled instant — base = (old expiry - old period) + new
period, in wrapping arithmetic — keeping it there when it is still in the
future, and otherwise advancing it by the least number of whole new periods
that lands strictly in the future.  Consequently, running process() then
advance_period(h, P) at every boundary keeps the expiry on the exact
multiples t0 + (n+1)P of the original phase with exactly one callback per
cycle and zero cumulative drift. -/
theorem c4_amended_advance_period_phase_lock :
    (∀ (p : safetimer_pool_t) (h : Int) (per t base : Nat),
      validate_handle p h = true →
      p.slots.length = MAX_TIMERS →
      1 ≤ per → per ≤ 32767 →
      (getSlot p (DECODE_INDEX h)).active = true →
      base = u16_add (u16_sub (getSlot p (DECODE_INDEX h)).expire_time
        (getSlot p (DECODE_INDEX h)).period) per →
      (safetimer_advance_period p h per t).2 = TIMER_OK ∧
      (getSlot (safetimer_advance_period p h per t).1 (DECODE_INDEX h)).period = per ∧
      (safetimer_tick_diff t base < 0 →
        (getSlot (safetimer_advance_period p h per t).1 (DECODE_INDEX h)).expire_time = base) ∧
      (0 ≤ safetimer_tick_diff t base →
        safetimer_tick_diff t
          (getSlot (safetimer_advance_period p h per t).1 (DECODE_INDEX h)).expire_time < 0 ∧
        ∃ k : Nat, 1 ≤ k ∧
          (getSlot (safetimer_advance_period p h per t).1 (DECODE_INDEX h)).expire_time =
            (base + k * per) % TICK_MOD ∧
          (1 < k → 0 ≤ safetimer_tick_diff t ((base + (k - 1) * per) % TICK_MOD)))) ∧
    (∀ (p : safetimer_pool_t) (h : Int) (P t0 g n : Nat),
      1 ≤ P → P ≤ 32767 → DECODE_GEN h = g →
      p.slots.length = MAX_TIMERS →
      p.used_bitmap &&& (1 <<< DECODE_INDEX h) ≠ 0 →
      getSlot p (DECODE_INDEX h) =
        { period := P, expire_time := (t0 + P) % TICK_MOD, callback := true,
          active := true, mode := TIMER_MODE_REPEAT, generation := g } →
      (run_cycles h P t0 n p).2 = n ∧
      getSlot (run_cycles h P t0 n p).1 (DECODE_INDEX h) =
        { period := P, expire_time := (t0 + (n + 1) * P) % TICK_MOD, callback := true,
          active := true, mode := TIMER_MODE_REPEAT, generation := g }) := by
  constructor
  · intro p h per t base hval hlen hper1 hper2 hact hbase
    have hperM : per % TICK_MOD = per := by
      unfold TICK_MOD
      omega
    have hc1 : ¬(per = 0 ∨ 2147483647 < per) := by omega
    have hc2 : ¬ 65535 < per := by omega
    have hbnd : DECODE_INDEX h < p.slots.length := by
      rw [hlen]
      exact DECODE_INDEX_lt h
    subst hbase
    by_cases hlag : 0 ≤ safetimer_tick_diff t
        (u16_add (u16_sub (getSlot p (DECODE_INDEX h)).expire_time
          (getSlot p (DECODE_INDEX h)).period) per)
    · have hlagM : 0 ≤ safetimer_tick_diff t
          (u16_add (u16_sub (getSlot p (DECODE_INDEX h)).expire_time
            (getSlot p (DECODE_INDEX h)).period) (per % TICK_MOD)) := by
        rw [hperM]
        exact hlag
      have hadv := advance_period_active_catchup p h per t hc1 hc2 hval hact hlagM
      rw [hperM] at hadv
      have hBlt : u16_add (u16_sub (getSlot p (DECODE_INDEX h)).expire_time
          (getSlot p (DECODE_INDEX h)).period) per < 65536 := by
        unfold u16_add TICK_MOD
        omega
      generalize hB : u16_add (u16_sub (getSlot p (DECODE_INDEX h)).expire_time
          (getSlot p (DECODE_INDEX h)).period) per = B at hlag hadv hBlt ⊢
      have hget : getSlot (safetimer_advance_period p h per t).1 (DECODE_INDEX h) =
          { getSlot p (DECODE_INDEX h) with
              period := per,
              expire_time := u16_add B
                (((safetimer_tick_diff t B).toNat / per + 1) * per
                  % 4294967296 % TICK_MOD) } := by
        rw [hadv]
        exact getSlot_setSlot_same _ _ _ hbnd
      have hspec := (tick_diff_spec t B).2.2
      have hcl := tick_diff_closed t B
      have hL32 : (safetimer_tick_diff t B).toNat < 32768 := by omega
      have hrel : ((t : Int) - B + 32768) % 65536 =
          (safetimer_tick_diff t B).toNat + 32768 := by omega
      generalize hL : (safetimer_tick_diff t B).toNat = L at hget hrel hL32
      have hdm := Nat.div_add_mod L per
      have hmod_lt : L % per < per := Nat.mod_lt _ (by omega)
      have hXlt : (L / per + 1) * per < 65536 := by
        rw [show (L / per + 1) * per = per * (L / per) + per from by ring]
        generalize per * (L / per) = Q at hdm ⊢
        omega
      have hmods : (L / per + 1) * per % 4294967296 % TICK_MOD = (L / per + 1) * per := by
        unfold TICK_MOD
        generalize hX : (L / per + 1) * per = X at hXlt ⊢
        omega
      have hexpire : (getSlot (safetimer_advance_period p h per t).1
          (DECODE_INDEX h)).expire_time = (B + (L / per + 1) * per) % TICK_MOD := by
        rw [hget]
        show u16_add B ((L / per + 1) * per % 4294967296 % TICK_MOD) = _
        rw [hmods]
        rfl
      have hfut : safetimer_tick_diff t ((B + (L / per + 1) * per) % TICK_MOD) < 0 := by
        rw [tick_diff_closed]
        rw [show (L / per + 1) * per = per * (L / per) + per from by ring]
        unfold TICK_MOD
        generalize per * (L / per) = Q at hdm
        generalize L % per = R at hdm hmod_lt
        omega
      refine ⟨by rw [hadv], by rw [hget], fun hcon => absurd hcon (not_lt.mpr hlag), fun _ => ?_⟩
      refine ⟨by rw [hexpire]; exact hfut, L / per + 1,
        Nat.succ_le_succ (Nat.zero_le _), hexpire, fun hk => ?_⟩
      rw [Nat.succ_sub_one, tick_diff_closed]
      have hY : L / per * per ≤ L := Nat.div_mul_le_self L per
      unfold TICK_MOD
      generalize L / per * per = Y at hY
      omega
    · have hlt : safetimer_tick_diff t
          (u16_add (u16_sub (getSlot p (DECODE_INDEX h)).expire_time
            (getSlot p (DECODE_INDEX h)).period) per) < 0 := not_le.mp hlag
      have hlagM : safetimer_tick_diff t
          (u16_add (u16_sub (getSlot p (DECODE_INDEX h)).expire_time
            (getSlot p (DECODE_INDEX h)).period) (per % TICK_MOD)) < 0 := by
        rw [hperM]
        exact hlt
      have hadv := advance_period_active_future p h per t hc1 hc2 hval hact hlagM
      rw [hperM] at hadv
      have hget : getSlot (safetimer_advance_period p h per t).1 (DECODE_INDEX h) =
          { getSlot p (DECODE_INDEX h) with
              period := per,
              expire_time := u16_add (u16_sub (getSlot p (DECODE_INDEX h)).expire_time
                (getSlot p (DECODE_INDEX h)).period) per } := by
        rw [hadv]
        exact getSlot_setSlot_same _ _ _ hbnd
      exact ⟨by rw [hadv], by rw [hget], fun _ => by rw [hget],
        fun hcon => absurd hcon (not_le.mpr hlt)⟩
  · intro p h P t0 g n hP1 hP2 hgen hlen hbit hslot
    obtain ⟨hc, hs, -, -⟩ := run_cycles_invariant h P t0 g hP1 hP2 hgen n p hlen hbit hslot
    exact ⟨hc, hs⟩

/-- Witness for C4 (amended) at concrete inputs: on the REPEAT pool (period
100, expiry 100, started at 0), advance_period(100) at tick 150 succeeds
and leaves the expiry in the future, and three full process/advance cycles
at the boundaries 100, 200, 300 fire exactly three callbacks with the
expiry landing on 400. -/
theorem c4_amended_advance_period_phase_lock_witness :
    (safetimer_advance_period c3_pool 4 100 150).2 = TIMER_OK ∧
    safetimer_tick_diff 150
      (getSlot (safetimer_advance_period c3_pool 4 100 150).1 0).expire_time < 0 ∧
    (run_cycles 4 100 0 3 c3_pool).2 = 3 ∧
    (getSlot (run_cycles 4 100 0 3 c3_pool).1 0).expire_time = 400 := by
  have ha := c4_amended_advance_period_phase_lock.1 c3_pool 4 100 150
    (u16_add (u16_sub (getSlot c3_pool 0).expire_time (getSlot c3_pool 0).period) 100)
    (by decide) (by decide) (by decide) (by decide) (by decide) rfl
  have hb := c4_amended_advance_period_phase_lock.2 c3_pool 4 100 0 1 3
    (by decide) (by decide) (by decide) (by decide) (by decide) (by decide)
  refine ⟨ha.1, ?_, hb.1, ?_⟩
  · have := (ha.2.2.2 (by decide)).1
    simpa using this
  · have hidx : (0 : Nat) = DECODE_INDEX 4 := by decide
    have hb2 := hb.2
    rw [← hidx] at hb2
    rw [hb2]
    norm_num [TICK_MOD]

end SafeTimer
